import Mathlib

/-!
Verification of the LYBook_1.16 editor tooling sources:
* `dev/Code/Sandbox/Editor/TrackView/SequenceBatchRenderDialog.cpp`
  (the batch sequence-render dialog and its capture state machine),
* the UI-canvas editor main window (`EditorWindow.cpp`),
* the `ObjectStream` serialization header (`ObjectStream.h`).

The C++ is shallowly embedded: dialog/widget state becomes explicit record
state, Qt widgets are reduced to the fields the code reads and writes,
engine calls are recorded in traces, machine floats for sequence times are
idealized as rationals (none of the verified properties depends on
rounding), and the filesystem is a boolean predicate on path strings.
-/

namespace LYBatchRender

/-! ## Basic data of SequenceBatchRenderDialog.cpp -/

/-- `Range` from the engine headers: a closed time interval.  Times are
idealized as rationals. -/
structure RangeQ where
  startT : ℚ
  endT : ℚ
  deriving DecidableEq, Repr

instance : Inhabited RangeQ := ⟨⟨0, 0⟩⟩

/-- A render item (`SRenderItem`).  The sequence and director pointers are
modelled as indices into the movie-system sequence list (`none` = null
pointer).  The field `fileBase` is the item's capture file-name stem
(named `prefix` in the source).  Its comparison operator is declared in
the dialog header (absent from the sources) and is modelled as field-wise
equality. -/
structure SRenderItem where
  pSequence : Option Nat
  pDirectorNode : Option Nat
  frameRange : RangeQ
  resW : Int
  resH : Int
  fps : Int
  formatIndex : Int
  bufferIndex : Int
  fileBase : String
  folder : String
  bCreateVideo : Bool
  disableDebugInfo : Bool
  cvars : List String
  deriving DecidableEq, Repr

instance : Inhabited SRenderItem :=
  ⟨{ pSequence := none, pDirectorNode := none, frameRange := default,
     resW := 0, resH := 0, fps := 0, formatIndex := 0, bufferIndex := 0,
     fileBase := "", folder := "", bCreateVideo := false,
     disableDebugInfo := false, cvars := [] }⟩

/-! ## Output-folder selection in CaptureItemStart (lines 929-943)

The source builds `folder = item.folder + "/" + itemText.replace('/', '-')`
and then walks `folder`, `folder_v2`, `folder_v3`, ... until a path that
does not yet exist is found.  The filesystem is a predicate
`ex : String → Bool`; the unbounded `while` loop is given explicit fuel. -/

/-- `QString::replace('/', '-')`: every slash becomes a dash. -/
def replaceSlashes (s : String) : String :=
  String.mk (s.data.map (fun c => if c = '/' then '-' else c))

/-- The `n`-th candidate folder: the folder itself, then `folder_v2`,
`folder_v3`, ... -/
def folderCandidate (folder : String) : Nat → String
  | 0 => folder
  | k + 1 => folder ++ "_v" ++ toString (k + 2)

/-- The `while (QFileInfo::exists(finalFolder))` loop of
`CaptureItemStart`, with fuel.  `cur` is `finalFolder` and `i` the suffix
counter (starting at 2). -/
def finalFolderLoop (ex : String → Bool) (folder : String) :
    String → Nat → Nat → String
  | cur, _, 0 => cur
  | cur, i, fuel + 1 =>
    if ex cur then finalFolderLoop ex folder (folder ++ "_v" ++ toString i) (i + 1) fuel
    else cur

/-- The final capture folder chosen by `CaptureItemStart` for a given base
folder. -/
def finalFolder (ex : String → Bool) (folder : String) (fuel : Nat) : String :=
  finalFolderLoop ex folder folder 2 fuel

/-! ## The dialog's output options and their preset persistence
(`SaveOutputOptions` lines 666-714, `LoadOutputOptions` lines 736-831)

Widget state is reduced to the fields the two functions read and write.
The non-editable combo boxes (resolution, image format, buffers) carry
only their current index — for them Qt keeps `currentText` equal to the
selected item's text.  The FPS combo box is editable, so its line-edit
text is a separate field.  The cvars plain-text edit is modelled as its
list of lines (`QPlainTextEdit` normalizes both `\n` and `\r\n` into
paragraph separators, so a list of lines is the faithful granularity for
the `split("\n")` / join-with-`"\r\n"` pair in the source). -/

/-- The FPS presets `fps[]` (lines 60-63): value and combo-box text. -/
def fpsPresets : List (Int × String) :=
  [(24, "Film(24)"), (25, "PAL(25)"), (30, "NTSC(30)"),
   (48, "Show(48)"), (50, "PAL Field(50)"), (60, "NTSC Field(60)")]

/-- The resolution presets `resolutions[]` (lines 46-49); `(-1, -1)` is the
`g_useActiveViewportResolution` sentinel (the last entry). -/
def resolutionPresets : List (Int × Int) :=
  [(1280, 720), (1920, 1080), (1998, 1080), (2048, 858), (2560, 1440), (-1, -1)]

/-- `kBatchRenderFileVersion` (line 76). -/
def kBatchRenderFileVersion : Int := 2

/-- The dialog state touched by the output-options and render-item code. -/
structure DialogState where
  /-- `m_sequenceCombo` current text. -/
  seqComboText : String
  /-- `m_shotCombo` item list (director node names of the current sequence). -/
  shotComboItems : List String
  /-- `m_shotCombo` current text. -/
  shotComboText : String
  /-- `m_startFrame` spin box value. -/
  startFrame : ℚ
  /-- `m_endFrame` spin box value. -/
  endFrame : ℚ
  /-- `m_destinationEdit` text. -/
  destination : String
  /-- `m_resolutionCombo` current index (0-5 presets, 6 = custom). -/
  resIndex : Int
  /-- item text of the custom entry (index 6) of the resolution combo. -/
  resCustomText : String
  /-- `m_fpsCombo` current index. -/
  fpsIndex : Int
  /-- `m_fpsCombo` line-edit text (the combo is editable). -/
  fpsText : String
  /-- `m_customFPS`. -/
  customFPS : Int
  /-- `m_customResW`. -/
  customResW : Int
  /-- `m_customResH`. -/
  customResH : Int
  /-- `m_imageFormatCombo` current index. -/
  imageFormatIndex : Int
  /-- `m_buffersToCaptureCombo` current index. -/
  buffersIndex : Int
  /-- `BATCH_RENDER_FILE_PREFIX` text (the capture file-name stem). -/
  fileBase : String
  /-- `m_disableDebugInfoCheckBox`. -/
  disableDebugInfo : Bool
  /-- `m_createVideoCheckBox`. -/
  createVideo : Bool
  /-- `m_cvarsEdit` contents, as lines. -/
  cvarLines : List String
  deriving DecidableEq, Repr

/-- `m_fpsCombo` item text at an index (the six presets; out of range gives
the empty string, as `QComboBox::itemText` does). -/
def fpsItemText (i : Int) : String :=
  if 0 ≤ i ∧ i < 6 then ((fpsPresets.getD i.toNat (0, "")).2) else ""

/-- `m_fpsCombo->findText(s)`: index of the first item with exactly this
text, `-1` if none. -/
def fpsFindText (s : String) : Int :=
  match fpsPresets.findIdx? (fun p => p.2 = s) with
  | some i => (i : Int)
  | none => -1

/-- `m_fpsCombo->setCurrentIndex(i)`: an in-range index selects the item
and puts its text into the line edit; an invalid index clears both. -/
def fpsSetCurrentIndex (i : Int) (d : DialogState) : DialogState :=
  if 0 ≤ i ∧ i < 6 then { d with fpsIndex := i, fpsText := fpsItemText i }
  else { d with fpsIndex := -1, fpsText := "" }

/-- `m_resolutionCombo->setCurrentIndex(i)` (7 items: 6 presets plus the
custom entry). -/
def resSetCurrentIndex (i : Int) (d : DialogState) : DialogState :=
  { d with resIndex := if 0 ≤ i ∧ i ≤ 6 then i else -1 }

/-- `m_imageFormatCombo->setCurrentIndex(i)` (3 items: jpg, tga, tif). -/
def imageFormatSetCurrentIndex (i : Int) (d : DialogState) : DialogState :=
  { d with imageFormatIndex := if 0 ≤ i ∧ i < 3 then i else -1 }

/-- `m_buffersToCaptureCombo->setCurrentIndex(i)` (2 items: Color,
Color+Alpha). -/
def buffersSetCurrentIndex (i : Int) (d : DialogState) : DialogState :=
  { d with buffersIndex := if 0 ≤ i ∧ i < 2 then i else -1 }

/-- `m_resolutionCombo` item text at an index: the preset strings
`"%1 x %2"`, `"Active View Resolution"` for the sentinel entry, and the
mutable custom entry text at index 6. -/
def resolutionComboItemText (d : DialogState) (i : Int) : String :=
  if i = 6 then d.resCustomText
  else if i = 5 then "Active View Resolution"
  else if 0 ≤ i ∧ i < 5 then
    let p := resolutionPresets.getD i.toNat (0, 0)
    toString p.1 ++ " x " ++ toString p.2
  else ""

/-- `OnBuffersSelected` (lines 1564-1586): capturing Color+Alpha forces the
image format to tga (index 1); an out-of-range selection falls back to
Color (no change); other values only log a warning. -/
def onBuffersSelected (d : DialogState) : DialogState :=
  let curSel := d.buffersIndex
  let bufferType : Int := if curSel ≥ 2 then 0 else curSel
  if bufferType = 1 then { d with imageFormatIndex := 1 } else d

/-- Strip an expected literal from the front of a character list
(`none` on mismatch). -/
def dropLiteral : List Char → List Char → Option (List Char)
  | [], rest => some rest
  | _ :: _, [] => none
  | c :: cs, r :: rs => if c = r then dropLiteral cs rs else none

/-- Unsigned decimal digits to an integer. -/
def digitsToInt (l : List Char) : Int :=
  l.foldl (fun a c => a * 10 + ((c.toNat : Int) - ('0'.toNat : Int))) 0

/-- The `azsscanf(customResText, "Custom(%d x %d)...", &w, &h)` parse of
`GetResolutionFromCustomResText` (lines 716-734), on the strings the
dialog itself writes (`customResFormat` = `"Custom(%1 x %2)..."`):
literal `Custom(`, digits, literal ` x `, digits. -/
def parseCustomRes (s : String) : Option (Int × Int) :=
  match dropLiteral "Custom(".toList s.toList with
  | none => none
  | some r1 =>
    let (d1, r2) := r1.span Char.isDigit
    if d1 = [] then none
    else
      match dropLiteral " x ".toList r2 with
      | none => none
      | some r3 =>
        let (d2, _) := r3.span Char.isDigit
        if d2 = [] then none
        else some (digitsToInt d1, digitsToInt d2)

/-- `GetResolutionFromCustomResText`: on a failed scan the result falls
back to the first resolution preset (1280 x 720). -/
def getResolutionFromCustomResText (s : String) : Int × Int :=
  (parseCustomRes s).getD (1280, 720)

/-- `QString::toInt`: the numeric value, or 0 when the string is not a
number. -/
def qstringToInt (s : String) : Int :=
  (s.toInt?).getD 0

/-- The parsed contents of a `.preset` file, mirroring the XML tree built
by `SaveOutputOptions`: in a general file each section may be missing
(`findChild` returns null); `getContent` of a node without content is the
empty string. -/
structure ResolutionNode where
  cursel : Int
  content : String
  deriving DecidableEq, Repr

structure FpsNode where
  cursel : Int
  content : String
  deriving DecidableEq, Repr

structure ImageNode where
  format : Int
  buffers : Int
  fileBase : String
  disableDebugInfo : Bool
  createVideo : Bool
  deriving DecidableEq, Repr

structure PresetFile where
  /-- the `version` attribute; `getAttr` leaves the initial 0 when absent. -/
  version : Int
  resolution : Option ResolutionNode
  fps : Option FpsNode
  image : Option ImageNode
  cvars : Option (List String)
  destination : Option String
  deriving DecidableEq, Repr

/-- `SaveOutputOptions` (lines 666-714) as a pure function from the dialog
state to the file contents. -/
def saveOutputOptions (d : DialogState) : PresetFile :=
  { version := kBatchRenderFileVersion
    resolution := some
      { cursel := d.resIndex
        content := if d.resIndex = 6 then resolutionComboItemText d d.resIndex else "" }
    fps := some
      { cursel := d.fpsIndex
        content := if d.fpsIndex = -1 ∨ fpsFindText d.fpsText = -1 then d.fpsText else "" }
    image := some
      { format := d.imageFormatIndex.tmod 3
        buffers := d.buffersIndex
        fileBase := d.fileBase
        disableDebugInfo := d.disableDebugInfo
        createVideo := d.createVideo }
    cvars := some d.cvarLines
    destination := some d.destination }

/-- The resolution section of `LoadOutputOptions` (lines 750-764): a
custom selection (index 6) installs the file's content as the custom item
text and re-parses it into `m_customResW/H`, then the index is selected. -/
def applyResolutionNode (rn : ResolutionNode) (d : DialogState) : DialogState :=
  let d :=
    if rn.cursel = 6 then
      let wh := getResolutionFromCustomResText rn.content
      { d with resCustomText := rn.content, customResW := wh.1, customResH := wh.2 }
    else d
  resSetCurrentIndex rn.cursel d

/-- The FPS section of `LoadOutputOptions` (lines 766-782): a saved index
of -1 restores the custom FPS text and `m_customFPS`; any other index is
simply selected (the file content is ignored). -/
def applyFpsNode (fn : FpsNode) (d : DialogState) : DialogState :=
  if fn.cursel = -1 then
    { d with fpsIndex := -1, fpsText := fn.content,
             customFPS := qstringToInt fn.content }
  else fpsSetCurrentIndex fn.cursel d

/-- The image section of `LoadOutputOptions` (lines 784-805): format and
buffer selection (followed by `OnBuffersSelected`), file-name stem,
debug-info flag, and — only when the ffmpeg plug-in is available — the
create-video flag. -/
def applyImageNode (ffmpegAvailable : Bool) (im : ImageNode) (d : DialogState) :
    DialogState :=
  let d := imageFormatSetCurrentIndex im.format d
  let d := buffersSetCurrentIndex im.buffers d
  let d := onBuffersSelected d
  let d := { d with fileBase := im.fileBase,
                    disableDebugInfo := im.disableDebugInfo }
  if ffmpegAvailable then { d with createVideo := im.createVideo } else d

/-- `LoadOutputOptions` (lines 736-831): `none` stands for a file
`XmlHelpers::LoadXmlFromFile` could not parse (the function then returns
`true` without touching the dialog); a parsed file with a different
version returns `false` without touching the dialog; otherwise every
present section is applied to the dialog state.  The boolean result is the
C++ return value. -/
def loadOutputOptions (file : Option PresetFile) (ffmpegAvailable : Bool)
    (d : DialogState) : Bool × DialogState :=
  match file with
  | none => (true, d)
  | some f =>
    if f.version ≠ kBatchRenderFileVersion then (false, d)
    else
      let d := match f.resolution with
        | none => d
        | some rn => applyResolutionNode rn d
      let d := match f.fps with
        | none => d
        | some fn => applyFpsNode fn d
      let d := match f.image with
        | none => d
        | some im => applyImageNode ffmpegAvailable im d
      let d := match f.cvars with
        | none => d
        | some ls => { d with cvarLines := ls }
      let d := match f.destination with
        | none => d
        | some t => { d with destination := t }
      (true, d)

/-- `OnLoadPreset` (lines 479-489), after a file was selected: the
"Cannot load / The file version is different!" box is shown exactly when
`LoadOutputOptions` returns `false`.  The first component is whether the
error was shown. -/
def onLoadPreset (file : Option PresetFile) (ffmpegAvailable : Bool)
    (d : DialogState) : Bool × DialogState :=
  let r := loadOutputOptions file ffmpegAvailable d
  (!r.1, r.2)

/-- A concrete, reachable dialog state whose FPS combo holds a custom
typed-in value ("37") while the current index is still 0 — exactly the
state produced by editing the FPS line edit (`OnFPSEditChange` stores
`m_customFPS` but does not change the index). -/
def fpsEditedDialog : DialogState :=
  { seqComboText := "Seq1", shotComboItems := ["Director1"],
    shotComboText := "Director1", startFrame := 0, endFrame := 100,
    destination := "C:/renders", resIndex := 0,
    resCustomText := "Custom(640 x 480)...", fpsIndex := 0, fpsText := "37",
    customFPS := 37, customResW := 640, customResH := 480,
    imageFormatIndex := 0, buffersIndex := 0, fileBase := "Frame",
    disableDebugInfo := false, createVideo := false,
    cvarLines := ["e_Shadows 1"] }

/-- A parsed preset file carrying a version other than
`kBatchRenderFileVersion`. -/
def versionMismatchFile : PresetFile :=
  { version := 3, resolution := none, fps := none, image := none,
    cvars := none, destination := none }

/-! ## The movie-system environment

`GetIEditor()->GetMovieSystem()` as far as the dialog reads it: a list of
sequences, each with a name and a list of animation nodes.  Sequence and
node pointers are modelled as indices (pointer identity coincides with
index identity because `FindLegacySequenceByName` always returns the first
name match). -/

inductive AnimNodeType
  | Director
  | Other
  deriving DecidableEq, Repr

structure AnimNode where
  nodeType : AnimNodeType
  name : String
  deriving DecidableEq, Repr

structure AnimSequence where
  name : String
  nodes : List AnimNode
  deriving DecidableEq, Repr

instance : Inhabited AnimSequence := ⟨⟨"", []⟩⟩

/-- `IMovieSystem::FindLegacySequenceByName`: the first sequence with the
given name. -/
def findLegacySequenceByName (movieSeqs : List AnimSequence) (nm : String) :
    Option Nat :=
  movieSeqs.findIdx? (fun s => s.name = nm)

/-- The director-search loop used by `SetUpNewRenderItem` (lines
1481-1489) and `OnLoadBatch` (lines 1353-1361): the first node of type
Director with the given name. -/
def findDirectorNode (sq : AnimSequence) (nm : String) : Option Nat :=
  sq.nodes.findIdx? (fun nd => nd.nodeType = AnimNodeType.Director ∧ nd.name = nm)

/-! ## Building render items from the dialog (`SetUpNewRenderItem`,
lines 1466-1542) and the add/update handlers -/

/-- `SetUpNewRenderItem`: builds an item from the current dialog settings.
Returns the C++ `(bool, item)` pair with the item filled exactly as far as
the early returns allow: an empty destination folder fails immediately
(lines 1472-1476), and a missing director node fails after the sequence
was stored (lines 1490-1493).  The source asserts that the sequence combo
text names an existing sequence; a missing sequence is modelled as setup
failure.  `fpsConv` is `m_fpsForTimeToFrameConversion`. -/
def setUpNewRenderItem (fpsConv : ℚ) (movieSeqs : List AnimSequence)
    (d : DialogState) : Bool × SRenderItem :=
  let item : SRenderItem := default
  let item := { item with folder := d.destination }
  if d.destination = "" then (false, item)
  else
    let item := { item with pSequence := findLegacySequenceByName movieSeqs d.seqComboText }
    match item.pSequence with
    | none => (false, item)
    | some si =>
      let sq := movieSeqs.getD si default
      let item := { item with pDirectorNode := findDirectorNode sq d.shotComboText }
      if item.pDirectorNode = none then (false, item)
      else
        let item := { item with frameRange := ⟨d.startFrame / fpsConv, d.endFrame / fpsConv⟩ }
        let item := { item with
          fps := if d.fpsIndex = -1 ∨ d.fpsText ≠ fpsItemText d.fpsIndex then d.customFPS
                 else (fpsPresets.getD d.fpsIndex.toNat (0, "")).1 }
        let item := { item with bufferIndex := d.buffersIndex }
        let item := { item with fileBase := d.fileBase }
        let item := { item with formatIndex := d.imageFormatIndex.tmod 3 }
        let item := { item with disableDebugInfo := d.disableDebugInfo }
        let item := { item with bCreateVideo := d.createVideo }
        let item :=
          if d.resIndex < 6 then
            -- an index of -1 would be an out-of-bounds read in the source;
            -- modelled as the first preset
            let p := resolutionPresets.getD d.resIndex.toNat (0, 0)
            { item with resW := p.1, resH := p.2 }
          else { item with resW := d.customResW, resH := d.customResH }
        let item := { item with cvars := d.cvarLines.filter (fun l => ¬ l = "") }
        (true, item)

/-- `OnAddRenderItem` (lines 390-417) acting on the render-item list: no
director in the shot combo, a failed `SetUpNewRenderItem`, or a duplicate
of an existing item all leave the list unchanged; otherwise the item is
appended (`AddItem`). -/
def onAddRenderItem (fpsConv : ℚ) (movieSeqs : List AnimSequence)
    (d : DialogState) (items : List SRenderItem) : List SRenderItem :=
  if d.shotComboItems.length = 0 then items
  else
    let r := setUpNewRenderItem fpsConv movieSeqs d
    if r.1 = false then items
    else if r.2 ∈ items then items
    else items ++ [r.2]

/-- `OnUpdateRenderItem` (lines 451-477) acting on the render-item list at
the selected row `index`: the source ignores the `SetUpNewRenderItem`
return value; a built item equal to any existing item refuses the update,
otherwise the selected row is replaced. -/
def onUpdateRenderItem (fpsConv : ℚ) (movieSeqs : List AnimSequence)
    (d : DialogState) (index : Nat) (items : List SRenderItem) : List SRenderItem :=
  let r := setUpNewRenderItem fpsConv movieSeqs d
  if r.2 ∈ items then items
  else items.set index r.2

/-! ## Loading a batch file (`OnLoadBatch`, lines 1315-1407) -/

/-- One `<item>` node of a `.batch` file, with the attributes `OnLoadBatch`
reads (`prefix` appears here as `fileBase`). -/
structure BatchItemNode where
  seqName : String
  directorName : String
  startFrame : ℚ
  endFrame : ℚ
  width : Int
  height : Int
  fps : Int
  format : Int
  buffers : Int
  fileBase : String
  createVideo : Bool
  folder : String
  cvars : List String
  deriving DecidableEq, Repr

/-- A parsed `.batch` file. -/
structure BatchFile where
  version : Int
  items : List BatchItemNode
  deriving DecidableEq, Repr

/-- The per-item body of the `OnLoadBatch` loop (lines 1336-1405): `none`
when the item is skipped with a warning (sequence not found, or no
director node of that name in the sequence).  The format index is clamped
to Jpg above `NumCaptureFileFormats` (note the source's `<=`, which lets
the out-of-range value 3 through), the buffer index to Color above
`NumCaptureBufferTypes` (likewise letting 2 through).  `OnLoadBatch` never
reads a debug-info attribute, so the item keeps the default-constructed
`false`. -/
def buildBatchItem (movieSeqs : List AnimSequence) (n : BatchItemNode) :
    Option SRenderItem :=
  match findLegacySequenceByName movieSeqs n.seqName with
  | none => none
  | some si =>
    match findDirectorNode (movieSeqs.getD si default) n.directorName with
    | none => none
    | some di =>
      some { pSequence := some si, pDirectorNode := some di,
             frameRange := ⟨n.startFrame, n.endFrame⟩,
             resW := n.width, resH := n.height, fps := n.fps,
             formatIndex := if n.format ≤ 3 then n.format else 0,
             bufferIndex := if n.buffers ≤ 2 then n.buffers else 0,
             fileBase := n.fileBase, folder := n.folder,
             bCreateVideo := n.createVideo, disableDebugInfo := false,
             cvars := n.cvars }

/-- The `OnLoadBatch` item loop: accumulates added items and the skipped
(warned-about) nodes, in file order. -/
def onLoadBatchLoop (movieSeqs : List AnimSequence) :
    List BatchItemNode → List SRenderItem → List BatchItemNode →
    List SRenderItem × List BatchItemNode
  | [], acc, warns => (acc, warns)
  | n :: rest, acc, warns =>
    match buildBatchItem movieSeqs n with
    | none => onLoadBatchLoop movieSeqs rest acc (warns ++ [n])
    | some it => onLoadBatchLoop movieSeqs rest (acc ++ [it]) warns

/-- `OnLoadBatch` after a file was selected: an unparseable file returns
silently; a version mismatch shows the "Cannot load" error and leaves the
render-item list untouched; a matching version clears the list
(`OnClearRenderItems`) and runs the item loop.  Result: the new
render-item list, whether the version error was shown, and the skipped
nodes (each produced a warning box). -/
def onLoadBatch (movieSeqs : List AnimSequence) (file : Option BatchFile)
    (items : List SRenderItem) :
    List SRenderItem × Bool × List BatchItemNode :=
  match file with
  | none => (items, false, [])
  | some f =>
    if f.version ≠ kBatchRenderFileVersion then (items, true, [])
    else
      let r := onLoadBatchLoop movieSeqs f.items [] []
      (r.1, false, r.2)

/-- A small movie system for concrete evaluation: `Seq1` has a director
node `Director1`; `SeqB` has no director. -/
def demoMovieSystem : List AnimSequence :=
  [{ name := "Seq1", nodes := [{ nodeType := AnimNodeType.Other, name := "Cam1" },
                               { nodeType := AnimNodeType.Director, name := "Director1" }] },
   { name := "SeqB", nodes := [{ nodeType := AnimNodeType.Other, name := "X" }] }]

/-- A batch-file item node for concrete evaluation. -/
def demoBatchNode (sq dir : String) : BatchItemNode :=
  { seqName := sq, directorName := dir, startFrame := 0, endFrame := 1,
    width := 1280, height := 720, fps := 30, format := 0, buffers := 0,
    fileBase := "Frame", createVideo := false, folder := "C:/out", cvars := [] }

/-- A version-2 batch file with one loadable item, one item naming a
missing sequence, and one item naming a sequence without that director. -/
def demoBatchFile : BatchFile :=
  { version := 2,
    items := [demoBatchNode "Seq1" "Director1",
              demoBatchNode "SeqC" "Director1",
              demoBatchNode "SeqB" "Director1"] }

/-- A batch file with a stale version number. -/
def versionMismatchBatchFile : BatchFile :=
  { version := 1, items := [demoBatchNode "Seq1" "Director1"] }

/-! ## The capture state machine

`CaptureState` (declared in the dialog header, used throughout
`SequenceBatchRenderDialog.cpp`), the render context, and the engine-side
state the capture code reads and writes: the sequences' flags, time range
and active director, the `r_CustomResWidth` / `r_CustomResHeight` /
`r_DisplayInfo` console variables (an absent cvar is `none`), the editor's
game-mode flag and the movie system's playing time.  Engine calls are
recorded in a trace.  Each phase function is written in single-assignment
style: one record update whose fields carry the net effect of the C++
statements, with the source's branching expressed in the field values. -/

inductive CaptureState
  | Idle
  | WarmingUpAfterResChange
  | EnteringGameMode
  | BeginPlayingSequence
  | Capturing
  | End
  | FFMPEGProcessing
  | Finalize
  deriving DecidableEq, Repr

inductive EngineCall
  | enableFixedStepForCapture (step : ℚ)
  | disableFixedStep
  | setInGameMode (enabled : Bool)
  | gameUpdate
  | pause
  | resume
  | addMovieListener (seqId : Nat)
  | removeMovieListener (seqId : Nat)
  | setPlayingTime (seqId : Nat) (t : ℚ)
  | startCapture (frame : Nat)
  | controlCapture
  | endCapture
  | abortSequence (seqId : Nat)
  | executeConsole (cmd : String)
  | executeEditorCommand (cmd : String)
  | ffmpegEncode
  deriving DecidableEq, Repr

inductive MovieEvent
  | Started
  | Stopped
  | Aborted
  | Updated
  deriving DecidableEq, Repr

/-- The per-sequence engine state the dialog touches. -/
structure SeqState where
  flags : Nat
  timeRange : RangeQ
  activeDirector : Option Nat
  deriving DecidableEq, Repr

instance : Inhabited SeqState := ⟨⟨0, default, none⟩⟩

/-- `IAnimSequence::eSeqFlags_PlayOnReset`, from the engine headers
(outside this repository); its exact bit value is irrelevant to the
properties proved here. -/
def eSeqFlags_PlayOnReset : Nat := 1

/-- The environment the batch render runs in. -/
structure BatchEnv where
  /-- `m_bFFMPEGCommandAvailable`. -/
  ffmpegAvailable : Bool
  /-- `m_ffmpegPluginStatusMsg`. -/
  ffmpegStatusMsg : String
  /-- `QFileInfo::exists`. -/
  fsExists : String → Bool
  /-- fuel bound for the unbounded folder-suffix loop. -/
  folderFuel : Nat
  /-- stashed active viewport resolution. -/
  activeViewportWidth : Int
  activeViewportHeight : Int

/-- `getResWidth` (lines 80-83): `-1` is the use-active-viewport
sentinel. -/
def getResWidth (env : BatchEnv) (w : Int) : Int :=
  if w = -1 then env.activeViewportWidth else w

/-- `getResHeight` (lines 85-88). -/
def getResHeight (env : BatchEnv) (h : Int) : Int :=
  if h = -1 then env.activeViewportHeight else h

/-- The dialog, render context and engine state during a batch render. -/
structure BatchState where
  /-- `m_renderItems`. -/
  renderItems : List SRenderItem
  /-- the render list box texts (`GetCaptureItemString` at add time). -/
  itemTexts : List String
  /-- engine sequences by id. -/
  seqs : Nat → SeqState
  /-- `r_CustomResWidth` (`none` = cvar absent). -/
  cvarCustomResWidth : Option Int
  /-- `r_CustomResHeight`. -/
  cvarCustomResHeight : Option Int
  /-- `r_DisplayInfo`. -/
  cvarDisplayInfo : Option Int
  /-- `GetIEditor()->IsInGameMode()`; `SetInGameMode` is modelled as
  taking effect with the `GameEngine::Update` the code pairs it with. -/
  inGameMode : Bool
  /-- the movie system's playing time of the current sequence. -/
  playingTime : ℚ
  /-- `m_renderContext.captureState`. -/
  captureState : CaptureState
  /-- `m_renderContext.framesSpentInCurrentPhase`. -/
  framesSpent : Nat
  /-- `m_renderContext.currentItemIndex`. -/
  currentItemIndex : Int
  /-- `m_renderContext.canceled`. -/
  canceled : Bool
  /-- `m_renderContext.processingFFMPEG`. -/
  processingFFMPEG : Bool
  /-- `m_renderContext.endingSequence`. -/
  endingSequence : Option Nat
  /-- `m_renderContext.spentTime`. -/
  spentTime : ℚ
  /-- `m_renderContext.expectedTotalTime`. -/
  expectedTotalTime : ℚ
  /-- `m_renderContext.flagBU`. -/
  flagBU : Nat
  /-- `m_renderContext.rangeBU`. -/
  rangeBU : RangeQ
  /-- `m_renderContext.pActiveDirectorBU`. -/
  activeDirectorBU : Option Nat
  /-- `m_renderContext.cvarCustomResWidthBU`. -/
  cvarCustomResWidthBU : Int
  /-- `m_renderContext.cvarCustomResHeightBU`. -/
  cvarCustomResHeightBU : Int
  /-- `m_renderContext.cvarDisplayInfoBU`. -/
  cvarDisplayInfoBU : Int
  /-- `captureOptions.timeStep`. -/
  optTimeStep : ℚ
  /-- `captureOptions.duration`. -/
  optDuration : ℚ
  /-- `captureOptions.folder`. -/
  optFolder : String
  /-- `captureOptions.captureBufferIndex`. -/
  optCaptureBufferIndex : Int
  /-- `captureOptions.prefix` (the file-name stem). -/
  optFileBase : String
  /-- `captureOptions` image format (0 jpg, 1 tga, 2 tif). -/
  optFormat : Int
  /-- `captureOptions.time`. -/
  optTime : ℚ
  /-- `captureOptions.once`. -/
  onceFlag : Bool
  /-- `m_progressBar` value. -/
  progressBar : Int
  /-- `m_progressStatusMsg` text (the spinner/percentage decoration of
  `UpdateSpinnerProgressMessage` is dropped). -/
  progressMsg : String
  /-- `m_pGoBtn` text. -/
  goBtnText : String
  /-- `BATCH_RENDER_PRESS_ESC_TO_CANCEL` text. -/
  escMsgText : String
  /-- `IMovieSystem::EnableBatchRenderMode` state. -/
  batchRenderMode : Bool
  /-- `CV_TrackViewRenderOutputCapturing`. -/
  trackViewCapturing : Int

/-- The item currently being rendered (`m_renderItems[currentItemIndex]`;
out-of-range modelled by the default item). -/
def currentItem (s : BatchState) : SRenderItem :=
  s.renderItems.getD s.currentItemIndex.toNat default

/-- A C++ `(int)` cast of a floating value: truncation toward zero. -/
def cppIntCast (q : ℚ) : Int :=
  q.num.tdiv (q.den : Int)

/-- `CSequenceBatchRenderDialog::CaptureItemStart` (lines 868-985).  Net
effect per field; the trace records the custom-cvar console commands, the
viewport resize fallback when the custom-resolution cvars are absent, and
`EnableFixedStepForCapture`.  Note that the first `SetTimeRange` uses the
*previous* `captureOptions.timeStep` (the source subtracts it before
assigning the new one), and `captureOptions.duration` is read back from
the sequence after that `SetTimeRange`. -/
def captureItemStart (env : BatchEnv) (s : BatchState) : BatchState × List EngineCall :=
  let renderItem := currentItem s
  let seqId := renderItem.pSequence.getD 0
  let sq := s.seqs seqId
  let flagBU := sq.flags
  let rangeBU := sq.timeRange
  let newRange : RangeQ := ⟨renderItem.frameRange.startT - s.optTimeStep, renderItem.frameRange.endT⟩
  let sqFinal : SeqState :=
    { sq with activeDirector := renderItem.pDirectorNode,
              flags := Nat.lor flagBU eSeqFlags_PlayOnReset,
              timeRange := newRange }
  let timeStep := 1 / (renderItem.fps : ℚ)
  let itemText := s.itemTexts.getD s.currentItemIndex.toNat ""
  let baseFolder := renderItem.folder ++ "/" ++ replaceSlashes itemText
  let renderWidth := getResWidth env renderItem.resW
  let renderHeight := getResHeight env renderItem.resH
  let cvarsPresent := s.cvarCustomResWidth.isSome ∧ s.cvarCustomResHeight.isSome
  let diPresent := s.cvarDisplayInfo.isSome
  let diVal := s.cvarDisplayInfo.getD 0
  let s' : BatchState :=
    { s with
      canceled := false
      trackViewCapturing := 1
      seqs := fun j => if j = seqId then sqFinal else s.seqs j
      activeDirectorBU := sq.activeDirector
      flagBU := flagBU
      rangeBU := rangeBU
      optTimeStep := timeStep
      optCaptureBufferIndex := renderItem.bufferIndex
      optFileBase := renderItem.fileBase
      optFormat :=
        if renderItem.formatIndex = 0 ∨ renderItem.formatIndex = 1 ∨ renderItem.formatIndex = 2
        then renderItem.formatIndex else 1
      optDuration := newRange.endT - newRange.startT
      optFolder := finalFolder env.fsExists baseFolder env.folderFuel
      cvarCustomResWidthBU :=
        if cvarsPresent then s.cvarCustomResWidth.getD 0 else s.cvarCustomResWidthBU
      cvarCustomResHeightBU :=
        if cvarsPresent then s.cvarCustomResHeight.getD 0 else s.cvarCustomResHeightBU
      cvarCustomResWidth :=
        if cvarsPresent then some renderWidth else s.cvarCustomResWidth
      cvarCustomResHeight :=
        if cvarsPresent then some renderHeight else s.cvarCustomResHeight
      cvarDisplayInfoBU := if diPresent then diVal else s.cvarDisplayInfoBU
      cvarDisplayInfo :=
        if diPresent ∧ renderItem.disableDebugInfo ∧ diVal ≠ 0 then some 0
        else s.cvarDisplayInfo
      captureState := CaptureState.WarmingUpAfterResChange
      framesSpent := 0 }
  (s', renderItem.cvars.map EngineCall.executeConsole ++
    (if cvarsPresent then []
     else [EngineCall.executeEditorCommand
       ("general.resize_viewport " ++ toString renderWidth ++ " " ++ toString renderHeight)]) ++
    [EngineCall.enableFixedStepForCapture timeStep])

/-- `OnUpdateWarmingUpAfterResChange` (lines 987-1001):
`framesSpentInCurrentPhase++ >= 30` post-increments; on the transition
tick editor idle processing is disabled and `SetInGameMode(true)` is
called. -/
def onUpdateWarmingUpAfterResChange (s : BatchState) : BatchState × List EngineCall :=
  if 30 ≤ s.framesSpent then
    ({ s with progressMsg := "Warming up", inGameMode := true,
              captureState := CaptureState.EnteringGameMode, framesSpent := 0 },
     [EngineCall.setInGameMode true])
  else
    ({ s with progressMsg := "Warming up", framesSpent := s.framesSpent + 1 }, [])

/-- `OnUpdateEnteringGameMode` (lines 1003-1019): note the double
post-increment — on a tick with a non-zero counter both conditions
increment it. -/
def onUpdateEnteringGameMode (s : BatchState) : BatchState × List EngineCall :=
  if s.framesSpent = 0 then
    ({ s with progressMsg := "Entering game mode", framesSpent := 1 },
     [EngineCall.gameUpdate, EngineCall.pause])
  else if 30 < s.framesSpent + 1 then
    ({ s with progressMsg := "Entering game mode",
              captureState := CaptureState.BeginPlayingSequence, framesSpent := 0 },
     [EngineCall.gameUpdate])
  else
    ({ s with progressMsg := "Entering game mode", framesSpent := s.framesSpent + 2 },
     [EngineCall.gameUpdate])

/-- `OnUpdateBeginPlayingSequence` (lines 1021-1041). -/
def onUpdateBeginPlayingSequence (s : BatchState) : BatchState × List EngineCall :=
  let renderItem := currentItem s
  let seqId := renderItem.pSequence.getD 0
  let newRange : RangeQ := ⟨renderItem.frameRange.startT - s.optTimeStep, renderItem.frameRange.endT⟩
  ({ s with progressMsg := "Begin Playing Sequence",
            seqs := fun j => if j = seqId then { s.seqs seqId with timeRange := newRange }
                             else s.seqs j,
            playingTime := newRange.startT,
            captureState := CaptureState.Capturing, framesSpent := 0 },
   [EngineCall.addMovieListener seqId, EngineCall.resume,
    EngineCall.setPlayingTime seqId newRange.startT])

/-- `OnUpdateCapturing` (lines 1043-1069): leaving game mode cancels into
`End`; otherwise the progress feedback is updated and the frame counter
advances. -/
def onUpdateCapturing (s : BatchState) : BatchState × List EngineCall :=
  let renderItem := currentItem s
  if ¬ s.inGameMode then
    ({ s with endingSequence := renderItem.pSequence, canceled := true,
              captureState := CaptureState.End, framesSpent := 0 }, [])
  else
    let seqId := renderItem.pSequence.getD 0
    let rng := (s.seqs seqId).timeRange
    let elapsed := s.playingTime - rng.startT
    let itemText := s.itemTexts.getD s.currentItemIndex.toNat ""
    ({ s with
        progressBar := cppIntCast (100 * (s.spentTime + elapsed) / s.expectedTotalTime),
        progressMsg := "Rendering " ++ itemText,
        framesSpent := s.framesSpent + 1 }, [])

/-- `OnUpdateEnd` (lines 1071-1149): fixed step off, listener removed,
game mode left (the paired `Update` executes it), the custom-resolution
cvars restored when both exist, `r_DisplayInfo` restored when it exists,
the sequence's flags/range/active director restored, then either the
ffmpeg job is spawned (plug-in available and video requested) or the
machine finalizes. -/
def onUpdateEnd (env : BatchEnv) (seqId : Nat) (s : BatchState) : BatchState × List EngineCall :=
  let renderItem := currentItem s
  let cvarsPresent := s.cvarCustomResWidth.isSome ∧ s.cvarCustomResHeight.isSome
  let diPresent := s.cvarDisplayInfo.isSome
  let restoredSeq : SeqState :=
    { s.seqs seqId with flags := s.flagBU, timeRange := s.rangeBU,
                        activeDirector := s.activeDirectorBU }
  let goFFMPEG := env.ffmpegAvailable ∧ renderItem.bCreateVideo
  let s' : BatchState :=
    { s with
      inGameMode := false
      cvarCustomResWidth :=
        if cvarsPresent then some s.cvarCustomResWidthBU else s.cvarCustomResWidth
      cvarCustomResHeight :=
        if cvarsPresent then some s.cvarCustomResHeightBU else s.cvarCustomResHeight
      cvarDisplayInfo :=
        if diPresent then some s.cvarDisplayInfoBU else s.cvarDisplayInfo
      seqs := fun j => if j = seqId then restoredSeq else s.seqs j
      processingFFMPEG := if goFFMPEG then true else s.processingFFMPEG
      captureState :=
        if goFFMPEG then CaptureState.FFMPEGProcessing else CaptureState.Finalize
      framesSpent := 0 }
  (s', [EngineCall.disableFixedStep, EngineCall.removeMovieListener seqId,
        EngineCall.setInGameMode false, EngineCall.gameUpdate] ++
       (if goFFMPEG then [EngineCall.ffmpegEncode] else []))

/-- `OnUpdateFFMPEGProcessing` (lines 1151-1159). -/
def onUpdateFFMPEGProcessing (s : BatchState) : BatchState × List EngineCall :=
  if ¬ s.processingFFMPEG then
    ({ s with progressMsg := "FFMPEG processing",
              captureState := CaptureState.Finalize, framesSpent := 0 }, [])
  else ({ s with progressMsg := "FFMPEG processing" }, [])

/-- The `QFutureWatcher::finished` lambda (lines 1137-1140). -/
def ffmpegWatcherFinished (s : BatchState) : BatchState :=
  { s with processingFFMPEG := false }

/-- `OnUpdateFinalize` (lines 1161-1206): on the last item the batch ends
(progress 0/"Rendering canceled" or 100/"Rendering finished", button back
to Start, batch-render mode off, index -1, `Idle`); otherwise the context
advances to the next item and `CaptureItemStart` runs. -/
def onUpdateFinalize (env : BatchEnv) (s : BatchState) : BatchState × List EngineCall :=
  if s.currentItemIndex = (s.renderItems.length : Int) - 1 then
    let s :=
      if s.canceled then { s with progressBar := 0, progressMsg := "Rendering canceled" }
      else { s with progressBar := 100, progressMsg := "Rendering finished" }
    ({ s with goBtnText := "Start", batchRenderMode := false,
              currentItemIndex := -1, escMsgText := env.ffmpegStatusMsg,
              trackViewCapturing := 0,
              captureState := CaptureState.Idle, framesSpent := 0 }, [])
  else
    captureItemStart env
      { s with spentTime := s.spentTime + s.optDuration,
               currentItemIndex := s.currentItemIndex + 1 }

/-- `SRenderContext::IsInRendering` is declared in the dialog header
(absent from the sources); consistently with its uses — `OnKickIdleTimout`
keeps the timer running until the machine returns to `Idle`, `OnGo` turns
into a cancel button during a batch — it is modelled as the machine not
being idle. -/
def IsInRendering (s : BatchState) : Prop :=
  s.captureState ≠ CaptureState.Idle

instance (s : BatchState) : Decidable (IsInRendering s) := by
  unfold IsInRendering; infer_instance

/-- `InitializeContext` (lines 853-866). -/
def initializeContext (s : BatchState) : BatchState :=
  { s with
    currentItemIndex := 0
    spentTime := 0
    expectedTotalTime :=
      s.renderItems.foldl (fun acc it => acc + (it.frameRange.endT - it.frameRange.startT)) 0
    onceFlag := false
    escMsgText := "Press ESC to cancel" }

/-- `OnMovieEvent` (lines 534-559): a stop/abort with a sequence finalizes
the current item into `End`; the null-sequence stop that `OnGo` posts
starts the first item when the list is non-empty. -/
def onMovieEvent (env : BatchEnv) (event : MovieEvent) (pSequence : Option Nat)
    (s : BatchState) : BatchState × List EngineCall :=
  if event = MovieEvent.Stopped ∨ event = MovieEvent.Aborted then
    match pSequence with
    | some sq =>
      ({ s with captureState := CaptureState.End, framesSpent := 0,
                endingSequence := some sq,
                canceled := event = MovieEvent.Aborted }, [])
    | none =>
      if 0 < s.renderItems.length then
        captureItemStart env { s with spentTime := 0, currentItemIndex := 0 }
      else (s, [])
  else (s, [])

/-- `OnCancelRender` (lines 1297-1313). -/
def onCancelRender (s : BatchState) : BatchState × List EngineCall :=
  if s.captureState = CaptureState.Capturing then
    (s, [EngineCall.abortSequence ((currentItem s).pSequence.getD 0)])
  else if s.captureState = CaptureState.EnteringGameMode then
    ({ s with endingSequence := (currentItem s).pSequence, canceled := true,
              captureState := CaptureState.End, framesSpent := 0 }, [])
  else (s, [])

/-- `OnGo` (lines 512-532), start branch: button to Cancel, batch-render
mode on, context initialized, then the null-sequence `eMovieEvent_Stopped`
that triggers the first item. -/
def onGo (env : BatchEnv) (s : BatchState) : BatchState × List EngineCall :=
  if IsInRendering s then onCancelRender s
  else
    onMovieEvent env MovieEvent.Stopped none
      (initializeContext { s with goBtnText := "Cancel", batchRenderMode := true })

/-- The state dispatch of `OnKickIdle` (lines 1222-1259). -/
def onKickIdleDispatch (env : BatchEnv) (s : BatchState) : BatchState × List EngineCall :=
  match s.captureState with
  | CaptureState.WarmingUpAfterResChange => onUpdateWarmingUpAfterResChange s
  | CaptureState.EnteringGameMode => onUpdateEnteringGameMode s
  | CaptureState.BeginPlayingSequence => onUpdateBeginPlayingSequence s
  | CaptureState.Capturing => onUpdateCapturing s
  | CaptureState.End =>
    let r := onUpdateEnd env (s.endingSequence.getD 0) s
    ({ r.1 with endingSequence := none }, r.2)
  | CaptureState.FFMPEGProcessing => onUpdateFFMPEGProcessing s
  | CaptureState.Finalize => onUpdateFinalize env s
  | CaptureState.Idle => (s, [])

/-- `OnKickIdle` (lines 1222-1295): after the dispatch, while in game mode
the capture is driven — `StartCapture`/`ControlCapture`, the game update,
then `EndCapture`/`ControlCapture` — but only in the `Capturing` state and
never on the first frame of the phase (`framesSpentInCurrentPhase == 0`);
out of game mode only posted events are flushed. -/
def onKickIdle (env : BatchEnv) (s : BatchState) : BatchState × List EngineCall :=
  let r := onKickIdleDispatch env s
  let s1 := r.1
  if s1.inGameMode then
    if s1.captureState = CaptureState.Capturing ∧ s1.framesSpent ≠ 0 then
      ({ s1 with optTime := s1.playingTime },
       r.2 ++ [EngineCall.startCapture s1.framesSpent, EngineCall.controlCapture,
               EngineCall.gameUpdate, EngineCall.endCapture, EngineCall.controlCapture])
    else (s1, r.2 ++ [EngineCall.gameUpdate])
  else (s1, r.2)

/-- Iterated idle-timer ticks, with the concatenated trace. -/
def kickIdleIter (env : BatchEnv) : Nat → BatchState → BatchState × List EngineCall
  | 0, s => (s, [])
  | n + 1, s =>
    let r := onKickIdle env s
    let r2 := kickIdleIter env n r.1
    (r2.1, r.2 ++ r2.2)

/-- A concrete render item for evaluation: sequence 0, director node 1. -/
def demoRenderItem : SRenderItem :=
  { pSequence := some 0, pDirectorNode := some 1, frameRange := ⟨0, 2⟩,
    resW := 1280, resH := 720, fps := 30, formatIndex := 0, bufferIndex := 0,
    fileBase := "Frame", folder := "C:/out", bCreateVideo := false,
    disableDebugInfo := true, cvars := [] }

/-- A second item, rendering to a different folder. -/
def demoRenderItem2 : SRenderItem :=
  { demoRenderItem with frameRange := ⟨0, 1⟩, folder := "C:/out2" }

/-- A concrete environment: ffmpeg available, and a filesystem on which
the base capture folder and its `_v2` variant already exist. -/
def demoEnv : BatchEnv :=
  { ffmpegAvailable := true, ffmpegStatusMsg := "",
    fsExists := fun p => p == "C:/out/Seq1" || p == "C:/out/Seq1_v2",
    folderFuel := 10, activeViewportWidth := 1600, activeViewportHeight := 900 }

/-- A concrete dialog/engine state with two queued render items, idle. -/
def demoBatchState : BatchState :=
  { renderItems := [demoRenderItem, demoRenderItem2]
    itemTexts := ["Seq1", "Seq1B"]
    seqs := fun _ => { flags := 8, timeRange := ⟨0, 5⟩, activeDirector := some 0 }
    cvarCustomResWidth := some 800
    cvarCustomResHeight := some 600
    cvarDisplayInfo := some 1
    inGameMode := false
    playingTime := 0
    captureState := CaptureState.Idle
    framesSpent := 0
    currentItemIndex := -1
    canceled := false
    processingFFMPEG := false
    endingSequence := none
    spentTime := 0
    expectedTotalTime := 0
    flagBU := 0
    rangeBU := default
    activeDirectorBU := none
    cvarCustomResWidthBU := 0
    cvarCustomResHeightBU := 0
    cvarDisplayInfoBU := 0
    optTimeStep := 0
    optDuration := 0
    optFolder := ""
    optCaptureBufferIndex := 0
    optFileBase := ""
    optFormat := 0
    optTime := 0
    onceFlag := false
    progressBar := 0
    progressMsg := "Not running"
    goBtnText := "Start"
    escMsgText := ""
    batchRenderMode := false
    trackViewCapturing := 0 }

/-- The demo state positioned at item 0. -/
def demoItem0State : BatchState :=
  { demoBatchState with currentItemIndex := 0 }

/-- The demo state finalizing its last item (index 1 of 2). -/
def demoFinalizeState : BatchState :=
  { demoBatchState with currentItemIndex := 1,
                        captureState := CaptureState.Finalize }

/-- The demo state finalizing its first item (index 0 of 2). -/
def demoMidFinalizeState : BatchState :=
  { demoBatchState with currentItemIndex := 0,
                        captureState := CaptureState.Finalize }

/-- The demo state at the start of the warming-up phase. -/
def demoWarmingState : BatchState :=
  { demoItem0State with captureState := CaptureState.WarmingUpAfterResChange,
                        framesSpent := 0 }

end LYBatchRender

namespace LYUiCanvasEditor

/-! ## The UI-canvas editor main window (`EditorWindow.cpp`)

The tab bar, the canvas metadata map and the active canvas id, as far as
`LoadCanvas` / `UnloadCanvas` and the tab-change handlers touch them.
`AZ::EntityId` is a `Nat` with 0 the invalid id.  Tab data is the canvas
entity id stored on each tab; `m_canvasMetadataMap` (an `AZStd::map`) is
an association list with unique keys, iterated in list order.  Qt's choice
of the new current tab after `QTabBar::removeTab`, and whether the
`currentChanged` signal reaches `OnCurrentCanvasTabChanged`, are inputs of
the model (`newCur` / `fired`), so every verified property holds for any
behavior of the widget. -/

/-- The slice of `UiCanvasMetadata` the modelled operations read:
`m_undoStack->isClean()` is `undoClean`; the entity context's state is
`hasPendingRequests` / `isInstantiatingSlices`. -/
structure UiCanvasMetadata where
  canvasEntityId : Nat
  canvasSourceAssetPathname : String
  autoLoaded : Bool
  canvasChangedAndSaved : Bool
  undoClean : Bool
  hasPendingRequests : Bool
  isInstantiatingSlices : Bool
  deriving DecidableEq, Repr

/-- The window state the claims are about. -/
structure EditorWindowState where
  /-- the canvas entity id in each tab's tab data, in tab order. -/
  tabs : List Nat
  /-- `QTabBar::currentIndex` (-1 when there is no tab). -/
  currentTabIndex : Int
  /-- `m_canvasMetadataMap`. -/
  canvasMetadataMap : List (Nat × UiCanvasMetadata)
  /-- `m_activeCanvasEntityId` (0 = invalid). -/
  activeCanvasEntityId : Nat
  deriving DecidableEq, Repr

/-- `m_canvasMetadataMap.find` (`GetCanvasMetadata`, lines 458-462). -/
def mapFind (m : List (Nat × UiCanvasMetadata)) (id : Nat) : Option UiCanvasMetadata :=
  (m.find? (fun p => p.1 = id)).map (fun p => p.2)

/-- `m_canvasMetadataMap.erase`. -/
def mapErase (m : List (Nat × UiCanvasMetadata)) (id : Nat) :
    List (Nat × UiCanvasMetadata) :=
  m.filter (fun p => ¬ p.1 = id)

/-- `GetCanvasEntityIdForTabIndex` (lines 427-438): invalid id when the
tab data is not valid (out of range). -/
def tabIdAt (s : EditorWindowState) (i : Int) : Nat :=
  if 0 ≤ i ∧ i < s.tabs.length then s.tabs.getD i.toNat 0 else 0

/-- `GetTabIndexForCanvasEntityId` (lines 440-451): the first tab holding
this id, else -1. -/
def getTabIndexForCanvasEntityId (s : EditorWindowState) (id : Nat) : Int :=
  match s.tabs.findIdx? (fun x => x = id) with
  | some i => (i : Int)
  | none => -1

/-- `CanChangeActiveCanvas` (lines 918-930). -/
def canChangeActiveCanvas (s : EditorWindowState) : Prop :=
  match mapFind s.canvasMetadataMap s.activeCanvasEntityId with
  | some m => ¬ (m.hasPendingRequests ∨ m.isInstantiatingSlices)
  | none => True

instance (s : EditorWindowState) : Decidable (canChangeActiveCanvas s) := by
  unfold canChangeActiveCanvas
  exact match mapFind s.canvasMetadataMap s.activeCanvasEntityId with
    | some m => instDecidableNot
    | none => instDecidableTrue

/-- `SetActiveCanvas` (lines 932-1014) as far as the modelled state goes:
early out when the canvas is already active, otherwise the active id
changes and the tab bar's current index is set to that canvas's tab (the
`currentChanged` this triggers early-outs in `OnCurrentCanvasTabChanged`
because the ids already agree).  The undo-stack/hierarchy/viewport side
effects are outside the modelled state. -/
def setActiveCanvas (id : Nat) (s : EditorWindowState) : EditorWindowState :=
  if id = s.activeCanvasEntityId then s
  else { s with activeCanvasEntityId := id,
                currentTabIndex := getTabIndexForCanvasEntityId s id }

/-- `OnCurrentCanvasTabChanged` (lines 1536-1571). -/
def onCurrentCanvasTabChanged (idx : Int) (s : EditorWindowState) : EditorWindowState :=
  let id := tabIdAt s idx
  if 0 ≤ idx ∧ id = 0 then s
  else if id ≠ 0 ∧ id = s.activeCanvasEntityId then s
  else if ¬ canChangeActiveCanvas s then
    { s with currentTabIndex := getTabIndexForCanvasEntityId s s.activeCanvasEntityId }
  else setActiveCanvas id s

/-- `QTabBar::removeTab` at index `i`: Qt picks some new current index
`newCur` and may deliver `currentChanged` to the handler (`fired`); both
are inputs so that the verified properties do not depend on the widget's
policy. -/
def removeTab (i : Int) (newCur : Int) (fired : Bool) (s : EditorWindowState) :
    EditorWindowState :=
  if 0 ≤ i ∧ i < s.tabs.length then
    let s1 := { s with tabs := s.tabs.eraseIdx i.toNat, currentTabIndex := newCur }
    if fired then onCurrentCanvasTabChanged newCur s1 else s1
  else s

/-- The tail of `UnloadCanvas` (lines 806-815): in case the tab change
triggered by the removal did not already fix it, make sure the active
canvas is a loaded one — the current tab's canvas if its metadata is
valid, otherwise the invalid id. -/
def ensureActiveCanvas (s2 : EditorWindowState) : EditorWindowState :=
  if (mapFind s2.canvasMetadataMap s2.activeCanvasEntityId).isSome then s2
  else if 0 ≤ s2.currentTabIndex ∧ s2.currentTabIndex < s2.tabs.length then
    setActiveCanvas (tabIdAt s2 s2.currentTabIndex) s2
  else setActiveCanvas 0 s2

/-- `UnloadCanvas` (lines 783-816): destroy the canvas, erase the map
entry, remove the canvas's tab, and re-establish a valid active canvas. -/
def unloadCanvas (id : Nat) (newCur : Int) (fired : Bool) (s : EditorWindowState) :
    EditorWindowState :=
  match mapFind s.canvasMetadataMap id with
  | none => s
  | some _ =>
    let s1 := { s with canvasMetadataMap := mapErase s.canvasMetadataMap id }
    ensureActiveCanvas (removeTab (getTabIndexForCanvasEntityId s1 id) newCur fired s1)

/-- The auto-created-canvas check of `LoadCanvas` (lines 742-762): the id
to unload when the newly loaded canvas is not a new canvas, exactly one
canvas is loaded, it is the active one, was auto-created, has no source
file and no changes. -/
def loadAutoUnloadTarget (s : EditorWindowState) (sourcePath : String) : Nat :=
  if ¬ sourcePath = "" ∧ s.canvasMetadataMap.length = 1 then
    match mapFind s.canvasMetadataMap s.activeCanvasEntityId with
    | some m =>
      if m.autoLoaded ∧ m.canvasSourceAssetPathname = "" ∧ m.undoClean then
        m.canvasEntityId
      else 0
    | none => 0
  else 0

/-- The environment inputs of one `LoadCanvas` call. -/
structure LoadEnv where
  /-- `QApplication::activePopupWidget() != nullptr`. -/
  popupActive : Bool
  /-- the source asset path when both asset-system queries succeed
  (`none` = resolution failed, an error box is shown). -/
  pathResolved : Option String
  /-- the entity id `CreateCanvasInEditor`/`LoadCanvasInEditor` returns
  (0 = load failed). -/
  newCanvasEntityId : Nat
  /-- Qt's new current tab index for the auto-created-canvas unload. -/
  unloadNewCur : Int
  /-- whether that unload's `currentChanged` reaches the handler. -/
  unloadFired : Bool

/-- The already-loaded check of `LoadCanvas` (lines 700-722): the first
map entry with the same source path, in map order; 0 when the canvas is a
new one or no entry matches. -/
def loadAlreadyLoaded (s : EditorWindowState) (filenameEmpty : Bool)
    (sourcePath : String) : Nat :=
  if filenameEmpty then 0
  else
    match s.canvasMetadataMap.find?
      (fun p => p.2.canvasSourceAssetPathname = sourcePath) with
    | some p => p.2.canvasEntityId
    | none => 0

/-- The metadata record `LoadCanvas` builds for the new canvas
(lines 735-741). -/
def loadMeta (envp : LoadEnv) (autoLoad : Bool) (sourcePath : String) :
    UiCanvasMetadata :=
  { canvasEntityId := envp.newCanvasEntityId,
    canvasSourceAssetPathname := sourcePath,
    autoLoaded := autoLoad, canvasChangedAndSaved := false,
    undoClean := true, hasPendingRequests := false,
    isInstantiatingSlices := false }

/-- The tab/map insertion of `LoadCanvas` (lines 764-772): one new tab
with the canvas id as tab data (the `currentChanged` fired for a first
tab early-outs on the not-yet-set tab data), one new map entry. -/
def loadAppend (envp : LoadEnv) (autoLoad : Bool) (sourcePath : String)
    (s : EditorWindowState) : EditorWindowState :=
  { s with tabs := s.tabs ++ [envp.newCanvasEntityId],
           currentTabIndex := if s.tabs.isEmpty then 0 else s.currentTabIndex,
           canvasMetadataMap := s.canvasMetadataMap ++
             [(envp.newCanvasEntityId, loadMeta envp autoLoad sourcePath)] }

/-- The activation step of `LoadCanvas` (lines 774-777): activate the new
canvas when requested or when nothing was active. -/
def loadActivate (changeActive : Bool) (id : Nat) (s1 : EditorWindowState) :
    EditorWindowState :=
  if changeActive ∨ s1.activeCanvasEntityId = 0 then
    if canChangeActiveCanvas s1 then setActiveCanvas id s1 else s1
  else s1

/-- The successful-creation tail of `LoadCanvas` (lines 742-780): insert,
activate, and unload the auto-created empty canvas if there was one (its
id is computed from the pre-load state, line 745). -/
def loadCanvasNew (envp : LoadEnv) (autoLoad changeActive : Bool)
    (sourcePath : String) (s : EditorWindowState) : EditorWindowState :=
  if loadAutoUnloadTarget s sourcePath ≠ 0 then
    unloadCanvas (loadAutoUnloadTarget s sourcePath) envp.unloadNewCur envp.unloadFired
      (loadActivate changeActive envp.newCanvasEntityId
        (loadAppend envp autoLoad sourcePath s))
  else
    loadActivate changeActive envp.newCanvasEntityId
      (loadAppend envp autoLoad sourcePath s)

/-- `LoadCanvas` (lines 630-781).  `filenameEmpty` is
`canvasFilename.isEmpty()` (a new canvas).  In order: popup guard, asset
path resolution, the already-loaded check, canvas creation, tab/map
insertion, activation, and the auto-created-canvas unload. -/
def loadCanvas (envp : LoadEnv) (filenameEmpty autoLoad changeActive : Bool)
    (s : EditorWindowState) : EditorWindowState :=
  if envp.popupActive then s
  else
    match (if filenameEmpty then some "" else envp.pathResolved) with
    | none => s
    | some sourcePath =>
      if loadAlreadyLoaded s filenameEmpty sourcePath ≠ 0 then
        if changeActive ∧ canChangeActiveCanvas s then
          setActiveCanvas (loadAlreadyLoaded s filenameEmpty sourcePath) s
        else s
      else if envp.newCanvasEntityId = 0 then s
      else loadCanvasNew envp autoLoad changeActive sourcePath s

/-- The one-to-one tab/canvas correspondence plus the supporting facts the
window maintains: every map entry has exactly one tab holding its id,
every tab's id has a map entry, map keys are unique, non-zero, each entry
stores its own key as its canvas id, and the active canvas is invalid or
loaded. -/
def TabMapInv (s : EditorWindowState) : Prop :=
  (∀ p ∈ s.canvasMetadataMap, s.tabs.count p.1 = 1) ∧
  (∀ id ∈ s.tabs, (mapFind s.canvasMetadataMap id).isSome) ∧
  s.tabs.Nodup ∧
  (s.canvasMetadataMap.map (fun p => p.1)).Nodup ∧
  (∀ p ∈ s.canvasMetadataMap, p.1 ≠ 0) ∧
  (∀ p ∈ s.canvasMetadataMap, p.2.canvasEntityId = p.1) ∧
  (s.activeCanvasEntityId = 0 ∨
    (mapFind s.canvasMetadataMap s.activeCanvasEntityId).isSome)

/-- A concrete window: two canvases 5 and 7, two tabs, canvas 5 active. -/
def demoCanvasMeta (id : Nat) (path : String) : UiCanvasMetadata :=
  { canvasEntityId := id, canvasSourceAssetPathname := path,
    autoLoaded := false, canvasChangedAndSaved := false, undoClean := true,
    hasPendingRequests := false, isInstantiatingSlices := false }

def demoWindow : EditorWindowState :=
  { tabs := [5, 7], currentTabIndex := 0,
    canvasMetadataMap := [(5, demoCanvasMeta 5 "ui/a.uicanvas"),
                          (7, demoCanvasMeta 7 "ui/b.uicanvas")],
    activeCanvasEntityId := 5 }

/-- A load environment producing canvas 9 from a new source file. -/
def demoLoadEnv : LoadEnv :=
  { popupActive := false, pathResolved := some "ui/c.uicanvas",
    newCanvasEntityId := 9, unloadNewCur := 0, unloadFired := false }

instance : DecidablePred TabMapInv := fun s => by
  unfold TabMapInv
  infer_instance

end LYUiCanvasEditor

namespace LYObjectStream

/-! ## The ObjectStream header (`ObjectStream.h`)

The claim under scrutiny is about the *syntactic* nature of the header:
which of the `ObjectStream` operations are merely declared and which come
with a body (executable logic) defined in the header itself.  The header's
member-declaration list is transcribed, each entry recording whether the
header defines a body for it. -/

structure HeaderDecl where
  name : String
  /-- member of class `ObjectStream` (as opposed to `DataStream` /
  `Handle` helpers). -/
  isObjectStreamOperation : Bool
  /-- a function body appears in the header file itself. -/
  definedInHeader : Bool
  deriving DecidableEq, Repr

/-- The declarations of `ObjectStream.h`, in source order.  The class
`ObjectStream` declares its stream operations (`LoadBlocking`, `Create`,
the virtual `WriteClass`/`Finalize`, `Cancel`, the plain asset filters)
without bodies, but the header *does* define the template member
`WriteClass<T>` (lines 200-226), the template asset filters
`AssetFilterAssetTypesOnly` (lines 229-247), and the inline protected
constructor (line 193). -/
def objectStreamHeaderDecls : List HeaderDecl :=
  [ { name := "DataStream::GetType", isObjectStreamOperation := false, definedInHeader := true },
    { name := "DataStream::SetType", isObjectStreamOperation := false, definedInHeader := true },
    { name := "ObjectStream::Handle::Handle", isObjectStreamOperation := false, definedInHeader := true },
    { name := "ObjectStream::LoadBlocking", isObjectStreamOperation := true, definedInHeader := false },
    { name := "ObjectStream::Create", isObjectStreamOperation := true, definedInHeader := false },
    { name := "ObjectStream::WriteClass(const void*, const Uuid&, const ClassData*)",
      isObjectStreamOperation := true, definedInHeader := false },
    { name := "ObjectStream::Finalize", isObjectStreamOperation := true, definedInHeader := false },
    { name := "ObjectStream::Cancel", isObjectStreamOperation := true, definedInHeader := false },
    { name := "ObjectStream::WriteClass<T>(const T*, const char*)",
      isObjectStreamOperation := true, definedInHeader := true },
    { name := "ObjectStream::AssetFilterDefault", isObjectStreamOperation := true, definedInHeader := false },
    { name := "ObjectStream::AssetFilterSlicesOnly", isObjectStreamOperation := true, definedInHeader := false },
    { name := "ObjectStream::AssetFilterAssetTypesOnly<T>",
      isObjectStreamOperation := true, definedInHeader := true },
    { name := "ObjectStream::AssetFilterAssetTypesOnly<T0, T1, Args...>",
      isObjectStreamOperation := true, definedInHeader := true },
    { name := "ObjectStream::AssetFilterNoAssetLoading", isObjectStreamOperation := true, definedInHeader := false },
    { name := "ObjectStream::ObjectStream(SerializeContext*)",
      isObjectStreamOperation := true, definedInHeader := true } ]

/-- The proposition asserted by the spec: every `ObjectStream` operation is
only declared, with no body in the header. -/
def declarationOnlyClaim : Prop :=
  ∀ d ∈ objectStreamHeaderDecls, d.isObjectStreamOperation → d.definedInHeader = false

instance : Decidable declarationOnlyClaim := by
  unfold declarationOnlyClaim; infer_instance

/-- The data `ObjectStream::WriteClass<T>` (header lines 200-226) branches
on: whether `FindClassData` produced class data, whether
`SerializeGenericTypeInfo<T>::GetGenericInfo()` yields generic class data,
and the result of the virtual `WriteClass` call. -/
structure WriteClassEnv where
  foundClassData : Bool
  genericClassData : Bool
  virtualWriteResult : Bool
  deriving DecidableEq, Repr

/-- `ObjectStream::WriteClass<T>`: returns `false` (after raising an
`AZ_Error` — the generic-root or unregistered-class diagnostic, depending
on `genericClassData`) when the class is not registered, and otherwise
defers to the virtual `WriteClass`. -/
def writeClassT (e : WriteClassEnv) : Bool :=
  if !e.foundClassData then
    false
  else
    e.virtualWriteResult

end LYObjectStream

/-! # Claim theorems -/

namespace LYBatchRender

/-- Auxiliary to C10: the folder loop returns the first non-existing
candidate.  `j` indexes the loop invariant: `cur` is candidate `j` and the
suffix counter is `j + 2`. -/
theorem finalFolderLoop_spec (ex : String → Bool) (folder : String) (n : Nat)
    (hn : ex (folderCandidate folder n) = false)
    (hlt : ∀ m, m < n → ex (folderCandidate folder m) = true) :
    ∀ fuel j, j ≤ n → n - j < fuel →
      finalFolderLoop ex folder (folderCandidate folder j) (j + 2) fuel =
        folderCandidate folder n := by
  intro fuel
  induction fuel with
  | zero => intro j _ h; omega
  | succ k ih =>
    intro j hj hfuel
    rcases eq_or_lt_of_le hj with rfl | hjn
    · simp [finalFolderLoop, hn]
    · have hex := hlt j hjn
      have hcand : folder ++ "_v" ++ toString (j + 2) = folderCandidate folder (j + 1) := by
        simp [folderCandidate]
      rw [finalFolderLoop, hex]
      simp only [hcand]
      have h3 : j + 1 + 2 = j + 2 + 1 := by omega
      rw [← h3]
      exact ih (j + 1) (by omega) (by omega)

/-- **C5**: `LoadOutputOptions` returns `false` exactly when the preset
file parses and its version differs from `kBatchRenderFileVersion` (2); an
unparseable file yields `true` with the dialog untouched, and a
version-mismatched file also leaves the dialog untouched; consequently
`OnLoadPreset` shows the "Cannot load / The file version is different!"
error exactly on a version mismatch, never on an unreadable file. -/
theorem C5_loadOutputOptions_version_handling
    (file : Option LYBatchRender.PresetFile) (ffmpegAvailable : Bool)
    (d : LYBatchRender.DialogState) :
    ((loadOutputOptions file ffmpegAvailable d).1 = false ↔
      ∃ f, file = some f ∧ f.version ≠ kBatchRenderFileVersion) ∧
    (file = none → loadOutputOptions file ffmpegAvailable d = (true, d)) ∧
    (∀ f, file = some f → f.version ≠ kBatchRenderFileVersion →
      loadOutputOptions file ffmpegAvailable d = (false, d)) ∧
    ((onLoadPreset file ffmpegAvailable d).1 = true ↔
      ∃ f, file = some f ∧ f.version ≠ kBatchRenderFileVersion) := by
  match file with
  | none =>
    refine ⟨?_, ?_, ?_, ?_⟩
    · simp [loadOutputOptions]
    · intro _; rfl
    · intro f h; cases h
    · simp [onLoadPreset, loadOutputOptions]
  | some f =>
    by_cases hv : f.version = kBatchRenderFileVersion
    · have hload : (loadOutputOptions (some f) ffmpegAvailable d).1 = true := by
        simp [loadOutputOptions, hv]
      have hpre : (onLoadPreset (some f) ffmpegAvailable d).1 = false := by
        simp [onLoadPreset, hload]
      refine ⟨?_, ?_, ?_, ?_⟩
      · constructor
        · intro h; rw [hload] at h; exact absurd h (by decide)
        · rintro ⟨g, hg, hne⟩; cases hg; exact absurd hv hne
      · intro h; cases h
      · intro g hg hne; cases hg; exact absurd hv hne
      · constructor
        · intro h; rw [hpre] at h; exact absurd h (by decide)
        · rintro ⟨g, hg, hne⟩; cases hg; exact absurd hv hne
    · have hload : loadOutputOptions (some f) ffmpegAvailable d = (false, d) := by
        simp [loadOutputOptions, hv]
      refine ⟨?_, ?_, ?_, ?_⟩
      · constructor
        · intro _; exact ⟨f, rfl, hv⟩
        · intro _; rw [hload]
      · intro h; cases h
      · intro g hg hne; cases hg; exact hload
      · constructor
        · intro _; exact ⟨f, rfl, hv⟩
        · intro _; simp [onLoadPreset, hload]

/-- Auxiliary: on each preset text, `findText` recovers the index. -/
theorem fpsFindText_itemText (i : Int) (h0 : 0 ≤ i) (h6 : i < 6) :
    fpsFindText (fpsItemText i) = i := by
  interval_cases i <;> decide

/-- Auxiliary: the resolution section round-trips on a consistent dialog
state. -/
theorem applyResolutionNode_save (d : DialogState)
    (hres : 0 ≤ d.resIndex ∧ d.resIndex ≤ 6)
    (hresC : d.resIndex = 6 →
      parseCustomRes d.resCustomText = some (d.customResW, d.customResH)) :
    applyResolutionNode
      { cursel := d.resIndex
        content := if d.resIndex = 6 then resolutionComboItemText d d.resIndex else "" }
      d = d := by
  obtain ⟨sq, sh, st, sf, ef, de, ri, rc, fi, ft, cf, cw, ch, im, bu, fb, dd, cv, cl⟩ := d
  simp only at hres hresC
  by_cases h6 : ri = 6
  · subst h6
    simp [applyResolutionNode, resolutionComboItemText,
      getResolutionFromCustomResText, hresC rfl, resSetCurrentIndex]
  · simp [applyResolutionNode, h6, resSetCurrentIndex, hres.1, hres.2]

/-- Auxiliary: the FPS section round-trips on a consistent dialog state. -/
theorem applyFpsNode_save (d : DialogState)
    (hfps : d.fpsIndex = -1 ∧ d.customFPS = qstringToInt d.fpsText ∨
      0 ≤ d.fpsIndex ∧ d.fpsIndex < 6 ∧ d.fpsText = fpsItemText d.fpsIndex) :
    applyFpsNode
      { cursel := d.fpsIndex
        content := if d.fpsIndex = -1 ∨ fpsFindText d.fpsText = -1 then d.fpsText else "" }
      d = d := by
  obtain ⟨sq, sh, st, sf, ef, de, ri, rc, fi, ft, cf, cw, ch, im, bu, fb, dd, cv, cl⟩ := d
  simp only at hfps
  rcases hfps with ⟨hidx, hcf⟩ | ⟨h0, h6, htext⟩
  · subst hidx
    simp [applyFpsNode, ← hcf]
  · subst htext
    have hne : fi ≠ -1 := by omega
    have hfind : fpsFindText (fpsItemText fi) = fi := fpsFindText_itemText fi h0 h6
    simp [applyFpsNode, hne, hfind, fpsSetCurrentIndex, h0, h6]

/-- Witness for C5, at a version-3 file and at an unparseable file. -/
theorem C5_witness :
    (loadOutputOptions (some versionMismatchFile) true fpsEditedDialog).1 = false ∧
    loadOutputOptions none true fpsEditedDialog = (true, fpsEditedDialog) := by
  constructor
  · exact (C5_loadOutputOptions_version_handling (some versionMismatchFile) true
      fpsEditedDialog).1.mpr ⟨versionMismatchFile, rfl, by decide⟩
  · exact (C5_loadOutputOptions_version_handling none true fpsEditedDialog).2.1 rfl

/-- Auxiliary: the image section round-trips on a consistent dialog
state. -/
theorem applyImageNode_save (ffmpegAvailable : Bool) (d : DialogState)
    (hfmt : 0 ≤ d.imageFormatIndex ∧ d.imageFormatIndex < 3)
    (hbuf : 0 ≤ d.buffersIndex ∧ d.buffersIndex < 2)
    (halpha : d.buffersIndex = 1 → d.imageFormatIndex = 1) :
    applyImageNode ffmpegAvailable
      { format := d.imageFormatIndex.tmod 3
        buffers := d.buffersIndex
        fileBase := d.fileBase
        disableDebugInfo := d.disableDebugInfo
        createVideo := d.createVideo }
      d = d := by
  obtain ⟨sq, sh, st, sf, ef, de, ri, rc, fi, ft, cf, cw, ch, im, bu, fb, dd, cv, cl⟩ := d
  simp only at hfmt hbuf halpha
  have htmod : im.tmod 3 = im := by
    have h0 : im = 0 ∨ im = 1 ∨ im = 2 := by omega
    rcases h0 with h | h | h <;> rw [h] <;> decide
  have hb : bu = 0 ∨ bu = 1 := by omega
  rcases hb with hb | hb
  · subst hb
    cases ffmpegAvailable <;>
      simp [applyImageNode, htmod, imageFormatSetCurrentIndex, buffersSetCurrentIndex,
        onBuffersSelected, hfmt.1, hfmt.2]
  · subst hb
    have him : im = 1 := halpha rfl
    subst him
    cases ffmpegAvailable <;>
      simp [applyImageNode, imageFormatSetCurrentIndex, buffersSetCurrentIndex,
        onBuffersSelected]

/-- **C4** counterexample: the roundtrip fails on the reachable dialog
state holding a typed-in custom FPS ("37") while the combo index is
still 0: `SaveOutputOptions` writes `cursel="0"` with content `"37"`, but
`LoadOutputOptions` only reads the content when `cursel` is -1, so loading
the file back selects index 0 and resets the FPS text to "Film(24)". -/
theorem C4_counterexample :
    fpsEditedDialog.fpsText = "37" ∧
    (loadOutputOptions (some (saveOutputOptions fpsEditedDialog)) true
      fpsEditedDialog).2.fpsText = "Film(24)" ∧
    loadOutputOptions (some (saveOutputOptions fpsEditedDialog)) true
      fpsEditedDialog ≠ (true, fpsEditedDialog) := by
  refine ⟨rfl, rfl, ?_⟩
  intro h
  have := congrArg (fun p => p.2.fpsText) h
  simp only at this
  exact absurd this (by decide)

/-- **C4** (amended): saving the output options and loading the file back
restores every saved option — resolution selection including the custom
resolution text, FPS selection, image format index, buffers index, file
stem, debug-info flag, create-video flag, cvars text and destination —
provided the dialog is in a widget-consistent state: combo indices within
range, the custom resolution text at index 6 parsing to the stored custom
resolution, the format forced to tga while Color+Alpha is selected, and
the FPS combo either at a preset whose text matches, or at index -1 (a
previously loaded custom FPS) with `m_customFPS` matching the text.  The
claim as literally stated fails when the FPS text is a custom value while
the index is not -1 (see the counterexample). -/
theorem C4_save_load_roundtrip (ffmpegAvailable : Bool) (d : DialogState)
    (hres : 0 ≤ d.resIndex ∧ d.resIndex ≤ 6)
    (hresC : d.resIndex = 6 →
      parseCustomRes d.resCustomText = some (d.customResW, d.customResH))
    (hfmt : 0 ≤ d.imageFormatIndex ∧ d.imageFormatIndex < 3)
    (hbuf : 0 ≤ d.buffersIndex ∧ d.buffersIndex < 2)
    (halpha : d.buffersIndex = 1 → d.imageFormatIndex = 1)
    (hfps : d.fpsIndex = -1 ∧ d.customFPS = qstringToInt d.fpsText ∨
      0 ≤ d.fpsIndex ∧ d.fpsIndex < 6 ∧ d.fpsText = fpsItemText d.fpsIndex) :
    loadOutputOptions (some (saveOutputOptions d)) ffmpegAvailable d = (true, d) := by
  have h1 := applyResolutionNode_save d hres hresC
  have h2 := applyFpsNode_save d hfps
  have h3 := applyImageNode_save ffmpegAvailable d hfmt hbuf halpha
  simp only [loadOutputOptions, saveOutputOptions, kBatchRenderFileVersion, ne_eq,
    not_true_eq_false, if_false, h1, h2, h3]

/-- Witness for C4's amended roundtrip, at a concrete consistent dialog
state (the counterexample state with its FPS combo set to preset 0). -/
theorem C4_witness :
    loadOutputOptions (some (saveOutputOptions (fpsSetCurrentIndex 0 fpsEditedDialog))) true
      (fpsSetCurrentIndex 0 fpsEditedDialog) = (true, fpsSetCurrentIndex 0 fpsEditedDialog) :=
  C4_save_load_roundtrip true (fpsSetCurrentIndex 0 fpsEditedDialog)
    (by decide) (by decide) (by decide) (by decide) (by decide)
    (Or.inr (by refine ⟨by decide, by decide, ?_⟩; decide))

/-- Auxiliary to C8: the item loop appends the buildable items and records
the skipped nodes, both in file order. -/
theorem onLoadBatchLoop_spec (movieSeqs : List AnimSequence)
    (nodes : List BatchItemNode) :
    ∀ acc warns, onLoadBatchLoop movieSeqs nodes acc warns =
      (acc ++ nodes.filterMap (buildBatchItem movieSeqs),
       warns ++ nodes.filter (fun n => (buildBatchItem movieSeqs n).isNone)) := by
  induction nodes with
  | nil => intro acc warns; simp [onLoadBatchLoop]
  | cons n rest ih =>
    intro acc warns
    cases h : buildBatchItem movieSeqs n with
    | none => simp [onLoadBatchLoop, h, ih, List.filterMap_cons, List.filter_cons]
    | some it => simp [onLoadBatchLoop, h, ih, List.filterMap_cons, List.filter_cons]

/-- **C8**: loading a batch file with a mismatched version shows the error
and leaves the render-item list unchanged (and loads nothing); with a
matching version the resulting list is exactly the buildable file items in
file order, each item whose sequence or director node is missing from the
movie system being skipped with a warning; an unparseable file changes
nothing. -/
theorem C8_onLoadBatch_version_and_skipping (movieSeqs : List AnimSequence)
    (file : Option BatchFile) (items : List SRenderItem) :
    (file = none → onLoadBatch movieSeqs file items = (items, false, [])) ∧
    (∀ f, file = some f → f.version ≠ kBatchRenderFileVersion →
      onLoadBatch movieSeqs file items = (items, true, [])) ∧
    (∀ f, file = some f → f.version = kBatchRenderFileVersion →
      onLoadBatch movieSeqs file items =
        (f.items.filterMap (buildBatchItem movieSeqs), false,
         f.items.filter (fun n => (buildBatchItem movieSeqs n).isNone))) := by
  refine ⟨?_, ?_, ?_⟩
  · rintro rfl; rfl
  · rintro f rfl hv; simp [onLoadBatch, hv]
  · rintro f rfl hv; simp [onLoadBatch, hv, onLoadBatchLoop_spec]

/-- Witness for C8: a good/missing-sequence/missing-director batch file
and a stale-version file, both evaluated concretely. -/
theorem C8_witness :
    onLoadBatch demoMovieSystem (some demoBatchFile) [] =
      (demoBatchFile.items.filterMap (buildBatchItem demoMovieSystem), false,
       demoBatchFile.items.filter
         (fun n => (buildBatchItem demoMovieSystem n).isNone)) ∧
    onLoadBatch demoMovieSystem (some versionMismatchBatchFile) [] = ([], true, []) ∧
    (demoBatchFile.items.filterMap (buildBatchItem demoMovieSystem)).length = 1 ∧
    (demoBatchFile.items.filter
      (fun n => (buildBatchItem demoMovieSystem n).isNone)).length = 2 := by
  refine ⟨?_, ?_, by decide, by decide⟩
  · exact (C8_onLoadBatch_version_and_skipping demoMovieSystem (some demoBatchFile) []).2.2
      demoBatchFile rfl rfl
  · exact (C8_onLoadBatch_version_and_skipping demoMovieSystem
      (some versionMismatchBatchFile) []).2.1 versionMismatchBatchFile rfl (by decide)

/-- Auxiliary to C9: replacing an element of a duplicate-free list by an
element not occurring in it keeps the list duplicate-free. -/
theorem nodup_set_of_not_mem {α : Type} :
    ∀ (l : List α) (n : Nat) (x : α), l.Nodup → x ∉ l → (l.set n x).Nodup := by
  intro l
  induction l with
  | nil => intro n x _ _; simp
  | cons a t ih =>
    intro n x hl hx
    rcases List.nodup_cons.mp hl with ⟨ha, ht⟩
    cases n with
    | zero =>
      simp only [List.set]
      exact List.nodup_cons.mpr ⟨fun h => hx (List.mem_cons_of_mem a h), ht⟩
    | succ m =>
      simp only [List.set]
      refine List.nodup_cons.mpr
        ⟨?_, ih m x ht (fun h => hx (List.mem_cons_of_mem a h))⟩
      intro hmem
      rcases List.mem_or_eq_of_mem_set hmem with h | h
      · exact ha h
      · subst h; exact hx (List.mem_cons_self a t)

/-- **C9**: `OnAddRenderItem` leaves the render-item list unchanged
whenever the shot combo is empty (no director available), the output
folder is empty, `SetUpNewRenderItem` fails (in particular when no
director node of the chosen name exists), or the built item equals an
existing one; `OnUpdateRenderItem` refuses to replace the selected row
with an item equal to any existing one; and neither handler introduces a
duplicate into a duplicate-free list. -/
theorem C9_add_update_no_duplicates (fpsConv : ℚ) (movieSeqs : List AnimSequence)
    (d : DialogState) (items : List SRenderItem) (index : Nat) :
    (d.shotComboItems.length = 0 → onAddRenderItem fpsConv movieSeqs d items = items) ∧
    (d.destination = "" → onAddRenderItem fpsConv movieSeqs d items = items) ∧
    ((setUpNewRenderItem fpsConv movieSeqs d).1 = false →
      onAddRenderItem fpsConv movieSeqs d items = items) ∧
    ((setUpNewRenderItem fpsConv movieSeqs d).2 ∈ items →
      onAddRenderItem fpsConv movieSeqs d items = items ∧
      onUpdateRenderItem fpsConv movieSeqs d index items = items) ∧
    (items.Nodup → (onAddRenderItem fpsConv movieSeqs d items).Nodup ∧
      (onUpdateRenderItem fpsConv movieSeqs d index items).Nodup) := by
  refine ⟨?_, ?_, ?_, ?_, ?_⟩
  · intro h; simp [onAddRenderItem, h]
  · intro h
    have hf : (setUpNewRenderItem fpsConv movieSeqs d).1 = false := by
      simp [setUpNewRenderItem, h]
    by_cases hs : d.shotComboItems.length = 0
    · simp [onAddRenderItem, hs]
    · simp [onAddRenderItem, hs, hf]
  · intro hf
    by_cases hs : d.shotComboItems.length = 0
    · simp [onAddRenderItem, hs]
    · simp [onAddRenderItem, hs, hf]
  · intro hmem
    constructor
    · by_cases hs : d.shotComboItems.length = 0
      · simp [onAddRenderItem, hs]
      · by_cases hf : (setUpNewRenderItem fpsConv movieSeqs d).1 = false
        · simp [onAddRenderItem, hs, hf]
        · simp [onAddRenderItem, hs, hf, hmem]
    · simp [onUpdateRenderItem, hmem]
  · intro hnd
    constructor
    · by_cases hs : d.shotComboItems.length = 0
      · simpa [onAddRenderItem, hs] using hnd
      · by_cases hf : (setUpNewRenderItem fpsConv movieSeqs d).1 = false
        · simpa [onAddRenderItem, hs, hf] using hnd
        · by_cases hmem : (setUpNewRenderItem fpsConv movieSeqs d).2 ∈ items
          · simpa [onAddRenderItem, hs, hf, hmem] using hnd
          · have : (items ++ [(setUpNewRenderItem fpsConv movieSeqs d).2]).Nodup := by
              rw [List.nodup_append]
              exact ⟨hnd, List.nodup_singleton _,
                fun a ha hb => hmem ((List.mem_singleton.mp hb) ▸ ha)⟩
            simpa [onAddRenderItem, hs, hf, hmem] using this
    · by_cases hmem : (setUpNewRenderItem fpsConv movieSeqs d).2 ∈ items
      · simpa [onUpdateRenderItem, hmem] using hnd
      · have := nodup_set_of_not_mem items index
          (setUpNewRenderItem fpsConv movieSeqs d).2 hnd hmem
        simpa [onUpdateRenderItem, hmem] using this

/-- **C10**: the output folder chosen by `CaptureItemStart` is the first
of the item's sequence folder, `folder_v2`, `folder_v3`, ... (suffix index
starting at 2) that does not already exist on disk — here under the
assumption that the first free candidate is within the loop fuel `n`. -/
theorem C10_capture_folder_first_free (env : BatchEnv) (s : BatchState) (n : Nat)
    (hn : env.fsExists (folderCandidate ((currentItem s).folder ++ "/" ++
      replaceSlashes (s.itemTexts.getD s.currentItemIndex.toNat "")) n) = false)
    (hlt : ∀ m, m < n → env.fsExists (folderCandidate ((currentItem s).folder ++ "/" ++
      replaceSlashes (s.itemTexts.getD s.currentItemIndex.toNat "")) m) = true)
    (hfuel : n < env.folderFuel) :
    (captureItemStart env s).1.optFolder =
      folderCandidate ((currentItem s).folder ++ "/" ++
        replaceSlashes (s.itemTexts.getD s.currentItemIndex.toNat "")) n := by
  have h := finalFolderLoop_spec env.fsExists
    ((currentItem s).folder ++ "/" ++ replaceSlashes (s.itemTexts.getD s.currentItemIndex.toNat ""))
    n hn hlt env.folderFuel 0 (Nat.zero_le n) (by omega)
  have hopt : (captureItemStart env s).1.optFolder =
      finalFolder env.fsExists ((currentItem s).folder ++ "/" ++
        replaceSlashes (s.itemTexts.getD s.currentItemIndex.toNat "")) env.folderFuel := rfl
  rw [hopt, finalFolder]
  simpa [folderCandidate] using h

/-- Witness for C10, on a filesystem where the base folder and its `_v2`
variant already exist: the `_v3` variant is chosen. -/
theorem C10_witness :
    (captureItemStart demoEnv demoItem0State).1.optFolder = "C:/out/Seq1_v3" := by
  have h := C10_capture_folder_first_free demoEnv demoItem0State 2
    (by decide)
    (by intro m hm; interval_cases m <;> decide)
    (by decide)
  simpa [folderCandidate] using h

/-- **C3**: everything `CaptureItemStart` backs up is restored by
`OnUpdateEnd` on the same sequence — the sequence's flags, time range and
active director, the custom-resolution cvars when both exist, and
`r_DisplayInfo` when it exists.  The state `s2` in which the capture ends
is arbitrary as long as the intermediate phases preserved the context's
backup fields and the cvars' existence (they do: no phase function touches
the backups, and cvars are never created or destroyed); nothing is assumed
about cancellation. -/
theorem C3_capture_state_restored (env env2 : BatchEnv) (s0 s2 : BatchState)
    (hflag : s2.flagBU = (captureItemStart env s0).1.flagBU)
    (hrange : s2.rangeBU = (captureItemStart env s0).1.rangeBU)
    (hdir : s2.activeDirectorBU = (captureItemStart env s0).1.activeDirectorBU)
    (hwBU : s2.cvarCustomResWidthBU = (captureItemStart env s0).1.cvarCustomResWidthBU)
    (hhBU : s2.cvarCustomResHeightBU = (captureItemStart env s0).1.cvarCustomResHeightBU)
    (hdBU : s2.cvarDisplayInfoBU = (captureItemStart env s0).1.cvarDisplayInfoBU)
    (hw : s2.cvarCustomResWidth.isSome = s0.cvarCustomResWidth.isSome)
    (hh : s2.cvarCustomResHeight.isSome = s0.cvarCustomResHeight.isSome)
    (hd : s2.cvarDisplayInfo.isSome = s0.cvarDisplayInfo.isSome)
    (seqId : Nat) (hseq : seqId = (currentItem s0).pSequence.getD 0) :
    ((onUpdateEnd env2 seqId s2).1.seqs seqId).flags = (s0.seqs seqId).flags ∧
    ((onUpdateEnd env2 seqId s2).1.seqs seqId).timeRange = (s0.seqs seqId).timeRange ∧
    ((onUpdateEnd env2 seqId s2).1.seqs seqId).activeDirector =
      (s0.seqs seqId).activeDirector ∧
    (s0.cvarCustomResWidth.isSome → s0.cvarCustomResHeight.isSome →
      (onUpdateEnd env2 seqId s2).1.cvarCustomResWidth = s0.cvarCustomResWidth ∧
      (onUpdateEnd env2 seqId s2).1.cvarCustomResHeight = s0.cvarCustomResHeight) ∧
    (s0.cvarDisplayInfo.isSome →
      (onUpdateEnd env2 seqId s2).1.cvarDisplayInfo = s0.cvarDisplayInfo) := by
  subst hseq
  have hbflag : (captureItemStart env s0).1.flagBU =
      (s0.seqs ((currentItem s0).pSequence.getD 0)).flags := rfl
  have hbrange : (captureItemStart env s0).1.rangeBU =
      (s0.seqs ((currentItem s0).pSequence.getD 0)).timeRange := rfl
  have hbdir : (captureItemStart env s0).1.activeDirectorBU =
      (s0.seqs ((currentItem s0).pSequence.getD 0)).activeDirector := rfl
  refine ⟨?_, ?_, ?_, ?_, ?_⟩
  · simp only [onUpdateEnd]
    simp [hflag, hbflag]
  · simp only [onUpdateEnd]
    simp [hrange, hbrange]
  · simp only [onUpdateEnd]
    simp [hdir, hbdir]
  · intro hw0 hh0
    have hw2 : s2.cvarCustomResWidth.isSome := by rw [hw]; exact hw0
    have hh2 : s2.cvarCustomResHeight.isSome := by rw [hh]; exact hh0
    have hcapW : (captureItemStart env s0).1.cvarCustomResWidthBU =
        s0.cvarCustomResWidth.getD 0 := by
      simp only [captureItemStart]
      rw [if_pos ⟨hw0, hh0⟩]
    have hcapH : (captureItemStart env s0).1.cvarCustomResHeightBU =
        s0.cvarCustomResHeight.getD 0 := by
      simp only [captureItemStart]
      rw [if_pos ⟨hw0, hh0⟩]
    obtain ⟨w0, hw0v⟩ := Option.isSome_iff_exists.mp hw0
    obtain ⟨h0, hh0v⟩ := Option.isSome_iff_exists.mp hh0
    constructor
    · simp only [onUpdateEnd]
      rw [if_pos ⟨hw2, hh2⟩, hwBU, hcapW, hw0v]
      rfl
    · simp only [onUpdateEnd]
      rw [if_pos ⟨hw2, hh2⟩, hhBU, hcapH, hh0v]
      rfl
  · intro hd0
    have hd2 : s2.cvarDisplayInfo.isSome := by rw [hd]; exact hd0
    have hcapD : (captureItemStart env s0).1.cvarDisplayInfoBU =
        s0.cvarDisplayInfo.getD 0 := by
      simp only [captureItemStart]
      rw [if_pos hd0]
    obtain ⟨v0, hv0⟩ := Option.isSome_iff_exists.mp hd0
    simp only [onUpdateEnd]
    rw [if_pos hd2, hdBU, hcapD, hv0]
    rfl

/-- Witness for C3: the capture starts from the demo state (both
custom-resolution cvars and `r_DisplayInfo` exist) and ends immediately
from the post-start state; flags, range, director and all three cvars are
back. -/
theorem C3_witness :
    ((onUpdateEnd demoEnv 0 (captureItemStart demoEnv demoItem0State).1).1.seqs 0).flags = 8 ∧
    ((onUpdateEnd demoEnv 0 (captureItemStart demoEnv demoItem0State).1).1.seqs 0).timeRange =
      ⟨0, 5⟩ ∧
    ((onUpdateEnd demoEnv 0 (captureItemStart demoEnv demoItem0State).1).1.seqs
      0).activeDirector = some 0 ∧
    (onUpdateEnd demoEnv 0 (captureItemStart demoEnv demoItem0State).1).1.cvarCustomResWidth =
      some 800 ∧
    (onUpdateEnd demoEnv 0 (captureItemStart demoEnv demoItem0State).1).1.cvarCustomResHeight =
      some 600 ∧
    (onUpdateEnd demoEnv 0 (captureItemStart demoEnv demoItem0State).1).1.cvarDisplayInfo =
      some 1 := by
  have h := C3_capture_state_restored demoEnv demoEnv demoItem0State
    (captureItemStart demoEnv demoItem0State).1
    rfl rfl rfl rfl rfl rfl (by decide) (by decide) (by decide) 0 rfl
  obtain ⟨h1, h2, h3, h4, h5⟩ := h
  obtain ⟨h4a, h4b⟩ := h4 (by decide) (by decide)
  exact ⟨by rw [h1]; rfl, by rw [h2]; rfl, by rw [h3]; rfl, by rw [h4a]; rfl,
    by rw [h4b]; rfl, by rw [h5 (by decide)]; rfl⟩

/-- **C1**: starting a batch over a non-empty render-item list captures
the items strictly in list order: `OnGo` puts the context at item index 0
and starts capturing it; finalizing an item that is not the last
increments the index by exactly one and immediately starts the next item
(the machine re-enters `WarmingUpAfterResChange`, so the batch is not
ended); and finalizing the item at the last index — and only then — ends
the batch: state `Idle` with progress 0/"Rendering canceled" when
canceled, 100/"Rendering finished" otherwise. -/
theorem C1_batch_runs_in_list_order (env : BatchEnv) (s : BatchState)
    (hidle : s.captureState = CaptureState.Idle)
    (hne : s.renderItems ≠ []) :
    ((onGo env s).1.currentItemIndex = 0 ∧
     (onGo env s).1.captureState = CaptureState.WarmingUpAfterResChange) ∧
    (∀ t : BatchState, t.renderItems = s.renderItems →
      ∀ k : Nat, (k : Int) = t.currentItemIndex → k + 1 < s.renderItems.length →
        (onUpdateFinalize env t).1.currentItemIndex = (k : Int) + 1 ∧
        (onUpdateFinalize env t).1.captureState = CaptureState.WarmingUpAfterResChange) ∧
    (∀ t : BatchState, t.renderItems = s.renderItems →
      t.currentItemIndex = (s.renderItems.length : Int) - 1 →
        (onUpdateFinalize env t).1.captureState = CaptureState.Idle ∧
        (onUpdateFinalize env t).1.currentItemIndex = -1 ∧
        (t.canceled = true →
          (onUpdateFinalize env t).1.progressBar = 0 ∧
          (onUpdateFinalize env t).1.progressMsg = "Rendering canceled") ∧
        (t.canceled = false →
          (onUpdateFinalize env t).1.progressBar = 100 ∧
          (onUpdateFinalize env t).1.progressMsg = "Rendering finished")) := by
  have hnr : ¬ IsInRendering s := by simp [IsInRendering, hidle]
  have hlen : 0 < s.renderItems.length := List.length_pos.mpr hne
  have hmov : ∀ u : BatchState, 0 < u.renderItems.length →
      onMovieEvent env MovieEvent.Stopped none u =
        captureItemStart env { u with spentTime := 0, currentItemIndex := 0 } := by
    intro u hu
    simp [onMovieEvent, hu]
  refine ⟨?_, ?_, ?_⟩
  · rw [onGo, if_neg hnr]
    rw [hmov (initializeContext
      { s with goBtnText := "Cancel", batchRenderMode := true }) hlen]
    exact ⟨rfl, rfl⟩
  · intro t ht k hk hklt
    have hne2 : ¬ (t.currentItemIndex = (t.renderItems.length : Int) - 1) := by
      rw [ht, ← hk]
      intro hcontra
      omega
    rw [onUpdateFinalize, if_neg hne2]
    constructor
    · show t.currentItemIndex + 1 = (k : Int) + 1
      rw [hk]
    · rfl
  · intro t ht hidx
    have hd : t.currentItemIndex = (t.renderItems.length : Int) - 1 := by
      rw [ht]; exact hidx
    rw [onUpdateFinalize, if_pos hd]
    refine ⟨rfl, rfl, ?_, ?_⟩
    · intro hc; simp [hc]
    · intro hc; simp [hc]

/-- Witness for C1, on the two-item demo batch: `OnGo` starts item 0,
finalizing item 0 starts item 1, finalizing item 1 ends the batch with
progress 100 / "Rendering finished". -/
theorem C1_witness :
    ((onGo demoEnv demoBatchState).1.currentItemIndex = 0 ∧
     (onGo demoEnv demoBatchState).1.captureState =
       CaptureState.WarmingUpAfterResChange) ∧
    ((onUpdateFinalize demoEnv demoMidFinalizeState).1.currentItemIndex = 1 ∧
     (onUpdateFinalize demoEnv demoMidFinalizeState).1.captureState =
       CaptureState.WarmingUpAfterResChange) ∧
    ((onUpdateFinalize demoEnv demoFinalizeState).1.captureState = CaptureState.Idle ∧
     (onUpdateFinalize demoEnv demoFinalizeState).1.progressBar = 100 ∧
     (onUpdateFinalize demoEnv demoFinalizeState).1.progressMsg = "Rendering finished") := by
  have h := C1_batch_runs_in_list_order demoEnv demoBatchState rfl (by decide)
  have hb := h.2.1 demoMidFinalizeState rfl 0 rfl (by decide)
  have hc := h.2.2 demoFinalizeState rfl (by decide)
  have hcc := hc.2.2.2 rfl
  exact ⟨h.1, ⟨by rw [hb.1]; rfl, hb.2⟩, hc.1, hcc.1, hcc.2⟩

/-- Auxiliary to C2: while warming up (and out of game mode) each tick
only advances the frame counter; no engine call is made. -/
theorem warming_iter (env : BatchEnv) :
    ∀ (k : Nat) (s : BatchState),
      s.captureState = CaptureState.WarmingUpAfterResChange →
      s.inGameMode = false → s.framesSpent + k ≤ 30 →
      (kickIdleIter env k s).1.captureState = CaptureState.WarmingUpAfterResChange ∧
      (kickIdleIter env k s).1.framesSpent = s.framesSpent + k ∧
      (kickIdleIter env k s).1.inGameMode = false ∧
      (kickIdleIter env k s).2 = [] := by
  intro k
  induction k with
  | zero => intro s h1 h2 _; exact ⟨h1, rfl, h2, rfl⟩
  | succ n ih =>
    intro s h1 h2 h3
    have hf : ¬ (30 ≤ s.framesSpent) := by omega
    have hstep : onKickIdle env s =
        ({ s with progressMsg := "Warming up", framesSpent := s.framesSpent + 1 }, []) := by
      simp only [onKickIdle, onKickIdleDispatch, h1, onUpdateWarmingUpAfterResChange,
        hf, if_false]
      simp [h2]
    obtain ⟨a, b, c, d⟩ := ih
      ({ s with progressMsg := "Warming up", framesSpent := s.framesSpent + 1 })
      h1 h2 (by show s.framesSpent + 1 + n ≤ 30; omega)
    refine ⟨?_, ?_, ?_, ?_⟩
    · simp only [kickIdleIter, hstep]
      exact a
    · simp only [kickIdleIter, hstep]
      rw [b]
      show s.framesSpent + 1 + n = s.framesSpent + (n + 1)
      omega
    · simp only [kickIdleIter, hstep]
      exact c
    · simp only [kickIdleIter, hstep]
      rw [d]
      rfl

/-- Auxiliary to C2: the tick on which the warming counter has reached 30
calls `SetInGameMode(true)` and enters `EnteringGameMode`. -/
theorem warming_transition (env : BatchEnv) (s : BatchState)
    (h1 : s.captureState = CaptureState.WarmingUpAfterResChange)
    (hf : 30 ≤ s.framesSpent) :
    (onKickIdle env s).1.captureState = CaptureState.EnteringGameMode ∧
    (onKickIdle env s).1.inGameMode = true ∧
    (onKickIdle env s).2 = [EngineCall.setInGameMode true, EngineCall.gameUpdate] := by
  have hstep : onKickIdleDispatch env s =
      ({ s with progressMsg := "Warming up", inGameMode := true,
                captureState := CaptureState.EnteringGameMode, framesSpent := 0 },
       [EngineCall.setInGameMode true]) := by
    simp only [onKickIdleDispatch, h1, onUpdateWarmingUpAfterResChange, hf, if_true]
  simp only [onKickIdle, hstep]
  simp

/-- Auxiliary to C2: composing tick runs. -/
theorem kickIdleIter_add (env : BatchEnv) (a b : Nat) :
    ∀ s : BatchState,
      (kickIdleIter env (a + b) s).1 = (kickIdleIter env b (kickIdleIter env a s).1).1 ∧
      (kickIdleIter env (a + b) s).2 =
        (kickIdleIter env a s).2 ++ (kickIdleIter env b (kickIdleIter env a s).1).2 := by
  induction a with
  | zero => intro s; simp [kickIdleIter]
  | succ n ih =>
    intro s
    have hsa : n + 1 + b = (n + b) + 1 := by omega
    rw [hsa]
    obtain ⟨ha, hb⟩ := ih (onKickIdle env s).1
    constructor
    · simp only [kickIdleIter]
      exact ha
    · simp only [kickIdleIter]
      rw [hb, List.append_assoc]

/-- Auxiliary to C2: no phase function itself emits `StartCapture` or
`EndCapture`; those are driven only by the lower half of `OnKickIdle`. -/
theorem dispatch_no_capture (env : BatchEnv) (s : BatchState) :
    (∀ f, EngineCall.startCapture f ∉ (onKickIdleDispatch env s).2) ∧
    EngineCall.endCapture ∉ (onKickIdleDispatch env s).2 := by
  have hcap : ∀ (e : BatchEnv) (u : BatchState),
      (∀ f, EngineCall.startCapture f ∉ (captureItemStart e u).2) ∧
      EngineCall.endCapture ∉ (captureItemStart e u).2 := by
    intro e u
    by_cases hc : u.cvarCustomResWidth.isSome ∧ u.cvarCustomResHeight.isSome <;>
      constructor <;> simp [captureItemStart, hc]
  cases hcs : s.captureState
  case Idle => simp [onKickIdleDispatch, hcs]
  case WarmingUpAfterResChange =>
    by_cases hf : 30 ≤ s.framesSpent <;>
      simp [onKickIdleDispatch, hcs, onUpdateWarmingUpAfterResChange, hf]
  case EnteringGameMode =>
    constructor
    · intro f
      simp only [onKickIdleDispatch, hcs, onUpdateEnteringGameMode]
      split_ifs <;> simp
    · simp only [onKickIdleDispatch, hcs, onUpdateEnteringGameMode]
      split_ifs <;> simp
  case BeginPlayingSequence =>
    simp [onKickIdleDispatch, hcs, onUpdateBeginPlayingSequence]
  case Capturing =>
    constructor
    · intro f
      simp only [onKickIdleDispatch, hcs, onUpdateCapturing]
      split_ifs <;> simp
    · simp only [onKickIdleDispatch, hcs, onUpdateCapturing]
      split_ifs <;> simp
  case End =>
    by_cases hg : env.ffmpegAvailable ∧ (currentItem s).bCreateVideo <;>
      constructor <;> simp [onKickIdleDispatch, hcs, onUpdateEnd, hg]
  case FFMPEGProcessing =>
    constructor
    · intro f
      simp only [onKickIdleDispatch, hcs, onUpdateFFMPEGProcessing]
      split_ifs <;> simp
    · simp only [onKickIdleDispatch, hcs, onUpdateFFMPEGProcessing]
      split_ifs <;> simp
  case Finalize =>
    constructor
    · intro f
      simp only [onKickIdleDispatch, hcs, onUpdateFinalize]
      split_ifs
      all_goals first
        | simp
        | exact (hcap env _).1 f
    · simp only [onKickIdleDispatch, hcs, onUpdateFinalize]
      split_ifs
      all_goals first
        | simp
        | exact (hcap env _).2

/-- **C2**: the per-item capture machine steps through its phases in the
fixed order `WarmingUpAfterResChange`, `EnteringGameMode`,
`BeginPlayingSequence`, `Capturing`, `End`, then `FFMPEGProcessing`
exactly when video creation is requested and the ffmpeg plug-in is
available, then `Finalize`; it spends 30 idle ticks warming up after the
resolution change before `SetInGameMode(true)` is called (on the 31st
tick); and `StartCapture`/`EndCapture` are emitted only in the `Capturing`
phase while the editor is in game mode and never on the first frame of the
phase (in particular not on the tick that enters `Capturing`). -/
theorem C2_capture_state_machine (env : BatchEnv) :
    (∀ s : BatchState, s.captureState = CaptureState.WarmingUpAfterResChange →
      s.framesSpent = 0 → s.inGameMode = false →
      (∀ k, k ≤ 30 →
        (kickIdleIter env k s).1.captureState = CaptureState.WarmingUpAfterResChange ∧
        (kickIdleIter env k s).1.framesSpent = k ∧
        (kickIdleIter env k s).2 = []) ∧
      ((kickIdleIter env (30 + 1) s).1.captureState = CaptureState.EnteringGameMode ∧
       (kickIdleIter env (30 + 1) s).2 =
         [EngineCall.setInGameMode true, EngineCall.gameUpdate])) ∧
    (∀ s : BatchState,
      (s.captureState = CaptureState.WarmingUpAfterResChange →
        (onKickIdleDispatch env s).1.captureState = CaptureState.WarmingUpAfterResChange ∨
        (onKickIdleDispatch env s).1.captureState = CaptureState.EnteringGameMode) ∧
      (s.captureState = CaptureState.EnteringGameMode →
        (onKickIdleDispatch env s).1.captureState = CaptureState.EnteringGameMode ∨
        (onKickIdleDispatch env s).1.captureState = CaptureState.BeginPlayingSequence) ∧
      (s.captureState = CaptureState.BeginPlayingSequence →
        (onKickIdleDispatch env s).1.captureState = CaptureState.Capturing) ∧
      (s.captureState = CaptureState.Capturing →
        (onKickIdleDispatch env s).1.captureState = CaptureState.Capturing ∨
        (onKickIdleDispatch env s).1.captureState = CaptureState.End) ∧
      (s.captureState = CaptureState.End →
        ((onKickIdleDispatch env s).1.captureState = CaptureState.FFMPEGProcessing ↔
          env.ffmpegAvailable ∧ (currentItem s).bCreateVideo) ∧
        ((onKickIdleDispatch env s).1.captureState = CaptureState.FFMPEGProcessing ∨
         (onKickIdleDispatch env s).1.captureState = CaptureState.Finalize)) ∧
      (s.captureState = CaptureState.FFMPEGProcessing →
        (onKickIdleDispatch env s).1.captureState = CaptureState.FFMPEGProcessing ∨
        (onKickIdleDispatch env s).1.captureState = CaptureState.Finalize)) ∧
    (∀ (s : BatchState) (ev : MovieEvent) (sq : Nat),
      ev = MovieEvent.Stopped ∨ ev = MovieEvent.Aborted →
      (onMovieEvent env ev (some sq) s).1.captureState = CaptureState.End) ∧
    (∀ s : BatchState,
      ((∃ f, EngineCall.startCapture f ∈ (onKickIdle env s).2) ∨
          EngineCall.endCapture ∈ (onKickIdle env s).2 →
        (onKickIdleDispatch env s).1.captureState = CaptureState.Capturing ∧
        (onKickIdleDispatch env s).1.inGameMode = true ∧
        (onKickIdleDispatch env s).1.framesSpent ≠ 0) ∧
      (s.captureState = CaptureState.BeginPlayingSequence →
        (∀ f, EngineCall.startCapture f ∉ (onKickIdle env s).2) ∧
        EngineCall.endCapture ∉ (onKickIdle env s).2)) := by
  refine ⟨?_, ?_, ?_, ?_⟩
  · intro s h1 h0 h2
    constructor
    · intro k hk
      obtain ⟨a, b, _, d⟩ := warming_iter env k s h1 h2 (by omega)
      exact ⟨a, by rw [b, h0]; omega, d⟩
    · obtain ⟨a30, b30, c30, d30⟩ := warming_iter env 30 s h1 h2 (by omega)
      obtain ⟨hadd1, hadd2⟩ := kickIdleIter_add env 30 1 s
      have hf30 : 30 ≤ (kickIdleIter env 30 s).1.framesSpent := by
        rw [b30, h0]
      obtain ⟨ta, _, tc⟩ := warming_transition env (kickIdleIter env 30 s).1 a30 hf30
      have hiter1 : kickIdleIter env 1 (kickIdleIter env 30 s).1 =
          ((onKickIdle env (kickIdleIter env 30 s).1).1,
           (onKickIdle env (kickIdleIter env 30 s).1).2 ++ []) := by
        simp only [kickIdleIter]
      constructor
      · calc (kickIdleIter env (30 + 1) s).1.captureState
            = (kickIdleIter env 1 (kickIdleIter env 30 s).1).1.captureState := by
              rw [hadd1]
          _ = (onKickIdle env (kickIdleIter env 30 s).1).1.captureState := by
              rw [hiter1]
          _ = CaptureState.EnteringGameMode := ta
      · calc (kickIdleIter env (30 + 1) s).2
            = (kickIdleIter env 30 s).2 ++
                (kickIdleIter env 1 (kickIdleIter env 30 s).1).2 := hadd2
          _ = [] ++ (kickIdleIter env 1 (kickIdleIter env 30 s).1).2 := by
              rw [d30]
          _ = [] ++ ((onKickIdle env (kickIdleIter env 30 s).1).2 ++ []) := by
              rw [hiter1]
          _ = [] ++ ([EngineCall.setInGameMode true, EngineCall.gameUpdate] ++ []) := by
              rw [tc]
          _ = [EngineCall.setInGameMode true, EngineCall.gameUpdate] := by simp
  · intro s
    refine ⟨?_, ?_, ?_, ?_, ?_, ?_⟩
    · intro h
      by_cases hf : 30 ≤ s.framesSpent <;>
        simp [onKickIdleDispatch, h, onUpdateWarmingUpAfterResChange, hf]
    · intro h
      simp only [onKickIdleDispatch, h, onUpdateEnteringGameMode]
      split_ifs <;> simp
    · intro h
      simp [onKickIdleDispatch, h, onUpdateBeginPlayingSequence]
    · intro h
      simp only [onKickIdleDispatch, h, onUpdateCapturing]
      split_ifs <;> simp
    · intro h
      by_cases hg : env.ffmpegAvailable ∧ (currentItem s).bCreateVideo <;>
        simp [onKickIdleDispatch, h, onUpdateEnd, hg]
    · intro h
      simp only [onKickIdleDispatch, h, onUpdateFFMPEGProcessing]
      split_ifs <;> simp
  · intro s ev sq hev
    rcases hev with h | h <;> simp [onMovieEvent, h]
  · intro s
    obtain ⟨hns, hne⟩ := dispatch_no_capture env s
    constructor
    · intro hmem
      by_cases hg : (onKickIdleDispatch env s).1.inGameMode
      · by_cases hcond : (onKickIdleDispatch env s).1.captureState =
            CaptureState.Capturing ∧ (onKickIdleDispatch env s).1.framesSpent ≠ 0
        · exact ⟨hcond.1, hg, hcond.2⟩
        · exfalso
          have htr : (onKickIdle env s).2 =
              (onKickIdleDispatch env s).2 ++ [EngineCall.gameUpdate] := by
            simp [onKickIdle, hg, hcond]
          rcases hmem with ⟨f, hf⟩ | he
          · rw [htr] at hf
            rcases List.mem_append.mp hf with h | h
            · exact hns f h
            · simp at h
          · rw [htr] at he
            rcases List.mem_append.mp he with h | h
            · exact hne h
            · simp at h
      · exfalso
        have htr : (onKickIdle env s).2 = (onKickIdleDispatch env s).2 := by
          simp [onKickIdle, hg]
        rcases hmem with ⟨f, hf⟩ | he
        · exact hns f (htr ▸ hf)
        · exact hne (htr ▸ he)
    · intro hb
      have hd : onKickIdleDispatch env s = onUpdateBeginPlayingSequence s := by
        simp [onKickIdleDispatch, hb]
      have hcond : ¬ ((onKickIdleDispatch env s).1.captureState =
          CaptureState.Capturing ∧ (onKickIdleDispatch env s).1.framesSpent ≠ 0) := by
        rw [hd]
        rintro ⟨_, h2⟩
        exact h2 rfl
      have htr : (onKickIdle env s).2 = (onKickIdleDispatch env s).2 ∨
          (onKickIdle env s).2 = (onKickIdleDispatch env s).2 ++ [EngineCall.gameUpdate] := by
        by_cases hg : (onKickIdleDispatch env s).1.inGameMode
        · right; simp [onKickIdle, hg, hcond]
        · left; simp [onKickIdle, hg]
      constructor
      · intro f hf
        rcases htr with h | h
        · rw [h, hd] at hf
          simp [onUpdateBeginPlayingSequence] at hf
        · rw [h, hd] at hf
          rcases List.mem_append.mp hf with hx | hx
          · simp [onUpdateBeginPlayingSequence] at hx
          · simp at hx
      · intro hf
        rcases htr with h | h
        · rw [h, hd] at hf
          simp [onUpdateBeginPlayingSequence] at hf
        · rw [h, hd] at hf
          rcases List.mem_append.mp hf with hx | hx
          · simp [onUpdateBeginPlayingSequence] at hx
          · simp at hx

/-- Witness for C2, on the demo warming state: 30 warming ticks make no
engine call, the 31st enters game mode; the begin-playing tick emits no
`StartCapture`; ending a capture with video requested moves to
`FFMPEGProcessing` (the demo environment has the ffmpeg plug-in). -/
theorem C2_witness :
    ((kickIdleIter demoEnv 30 demoWarmingState).1.captureState =
      CaptureState.WarmingUpAfterResChange ∧
     (kickIdleIter demoEnv 30 demoWarmingState).1.framesSpent = 30 ∧
     (kickIdleIter demoEnv 30 demoWarmingState).2 = []) ∧
    ((kickIdleIter demoEnv (30 + 1) demoWarmingState).1.captureState =
      CaptureState.EnteringGameMode ∧
     (kickIdleIter demoEnv (30 + 1) demoWarmingState).2 =
       [EngineCall.setInGameMode true, EngineCall.gameUpdate]) ∧
    (∀ f, EngineCall.startCapture f ∉
      (onKickIdle demoEnv
        { demoItem0State with
            captureState := CaptureState.BeginPlayingSequence }).2) := by
  have h := C2_capture_state_machine demoEnv
  have h1 := h.1 demoWarmingState rfl rfl rfl
  exact ⟨h1.1 30 (by omega), h1.2,
    (h.2.2.2 { demoItem0State with
      captureState := CaptureState.BeginPlayingSequence }).2 rfl |>.1⟩

/-- Witness for C9: a successfully built item already in the list blocks
both add and update, and both handlers preserve duplicate-freeness from
the empty list. -/
theorem C9_witness :
    (onAddRenderItem 30 demoMovieSystem fpsEditedDialog
        [(setUpNewRenderItem 30 demoMovieSystem fpsEditedDialog).2] =
      [(setUpNewRenderItem 30 demoMovieSystem fpsEditedDialog).2]) ∧
    (onUpdateRenderItem 30 demoMovieSystem fpsEditedDialog 0
        [(setUpNewRenderItem 30 demoMovieSystem fpsEditedDialog).2] =
      [(setUpNewRenderItem 30 demoMovieSystem fpsEditedDialog).2]) ∧
    (onAddRenderItem 30 demoMovieSystem fpsEditedDialog []).Nodup := by
  have h4 := (C9_add_update_no_duplicates 30 demoMovieSystem fpsEditedDialog
    [(setUpNewRenderItem 30 demoMovieSystem fpsEditedDialog).2] 0).2.2.2.1
    (List.mem_singleton.mpr rfl)
  have h5 := (C9_add_update_no_duplicates 30 demoMovieSystem fpsEditedDialog [] 0).2.2.2.2
    List.nodup_nil
  exact ⟨h4.1, h4.2, h5.1⟩

end LYBatchRender

/-- **C6** counterexample: the claim "every ObjectStream operation is only
declared, with no executable logic defined in the header itself" is false:
the template member `ObjectStream::WriteClass<T>` (header lines 200-226)
is an ObjectStream operation whose body is defined in the header. -/
theorem C6_counterexample : ¬ LYObjectStream.declarationOnlyClaim := by
  decide

/-- **C6** (amended): the header declares the non-template `ObjectStream`
operations (`LoadBlocking`, `Create`, the virtual `WriteClass` and
`Finalize`, `Cancel`, and the plain asset filters) without bodies, but it
does define in the header the template members `WriteClass<T>` and
`AssetFilterAssetTypesOnly` together with the inline protected
constructor; the header-defined `WriteClass<T>` carries executable logic:
it returns `false` whenever the class is not registered with the
serializer and otherwise returns the virtual `WriteClass` result. -/
theorem C6_amended :
    (∀ d ∈ LYObjectStream.objectStreamHeaderDecls, d.isObjectStreamOperation →
      (d.definedInHeader = true ↔
        d.name ∈ ["ObjectStream::WriteClass<T>(const T*, const char*)",
                  "ObjectStream::AssetFilterAssetTypesOnly<T>",
                  "ObjectStream::AssetFilterAssetTypesOnly<T0, T1, Args...>",
                  "ObjectStream::ObjectStream(SerializeContext*)"])) ∧
    (∀ e : LYObjectStream.WriteClassEnv,
      LYObjectStream.writeClassT e =
        (e.foundClassData && e.virtualWriteResult)) := by
  constructor
  · decide
  · intro e
    cases h : e.foundClassData <;> simp [LYObjectStream.writeClassT, h]

/-- Witness for C6's amended statement: the header-defined `WriteClass<T>`
evaluated where the class is unregistered but generic info exists returns
`false`. -/
theorem C6_witness :
    LYObjectStream.writeClassT
      { foundClassData := false, genericClassData := true, virtualWriteResult := true } =
      false := by
  have h := C6_amended.2
    { foundClassData := false, genericClassData := true, virtualWriteResult := true }
  simpa using h

namespace LYUiCanvasEditor

/-! ### Helper lemmas about the metadata map and the tab list -/

/-- A successful `mapFind` returns a stored entry. -/
theorem mapFind_some_mem {m : List (Nat × UiCanvasMetadata)} {id : Nat}
    {v : UiCanvasMetadata} (h : mapFind m id = some v) : (id, v) ∈ m := by
  induction m with
  | nil => simp [mapFind] at h
  | cons p t ih =>
    obtain ⟨a, b⟩ := p
    by_cases hp : a = id
    · subst hp
      simp [mapFind, List.find?_cons] at h
      subst h
      exact List.mem_cons_self _ _
    · have h' : mapFind t id = some v := by
        simpa [mapFind, List.find?_cons, hp] using h
      exact List.mem_cons_of_mem _ (ih h')

/-- A failed `mapFind` means no entry has the key. -/
theorem mapFind_none_not_key {m : List (Nat × UiCanvasMetadata)} {id : Nat}
    (h : mapFind m id = none) : ∀ p ∈ m, p.1 ≠ id := by
  intro p hp
  have hf : m.find? (fun q => q.1 = id) = none := by
    simpa [mapFind] using h
  have := List.find?_eq_none.mp hf p hp
  simpa using this

/-- Every stored key is found. -/
theorem mapFind_isSome_of_mem {m : List (Nat × UiCanvasMetadata)}
    {p : Nat × UiCanvasMetadata} (hp : p ∈ m) : (mapFind m p.1).isSome := by
  induction m with
  | nil => cases hp
  | cons q t ih =>
    by_cases hq : q.1 = p.1
    · simp [mapFind, List.find?_cons, hq]
    · rcases List.mem_cons.mp hp with h | h
      · exact absurd (congrArg Prod.fst h).symm hq
      · simpa [mapFind, List.find?_cons, hq] using ih h

/-- Erasing one key does not change lookups of other keys. -/
theorem mapFind_mapErase_ne (m : List (Nat × UiCanvasMetadata)) (id x : Nat)
    (h : x ≠ id) : mapFind (mapErase m id) x = mapFind m x := by
  induction m with
  | nil => rfl
  | cons p t ih =>
    by_cases hpid : p.1 = id
    · have hpx : ¬ p.1 = x := by rw [hpid]; exact fun hh => h hh.symm
      calc mapFind (mapErase (p :: t) id) x
          = mapFind (mapErase t id) x := by
            simp [mapErase, List.filter_cons, hpid]
        _ = mapFind t x := ih
        _ = mapFind (p :: t) x := by simp [mapFind, List.find?_cons, hpx]
    · by_cases hpx : p.1 = x
      · calc mapFind (mapErase (p :: t) id) x
            = some p.2 := by
              simp [mapErase, List.filter_cons, hpid, mapFind, List.find?_cons, hpx, h]
          _ = mapFind (p :: t) x := by simp [mapFind, List.find?_cons, hpx]
      · calc mapFind (mapErase (p :: t) id) x
            = mapFind (mapErase t id) x := by
              simp [mapErase, List.filter_cons, hpid, mapFind, List.find?_cons, hpx]
          _ = mapFind t x := ih
          _ = mapFind (p :: t) x := by simp [mapFind, List.find?_cons, hpx]

/-- The erased key is gone. -/
theorem mapFind_mapErase_self (m : List (Nat × UiCanvasMetadata)) (id : Nat) :
    mapFind (mapErase m id) id = none := by
  have : ∀ p ∈ mapErase m id, ¬ ((fun q : Nat × UiCanvasMetadata => (q.1 = id : Bool)) p = true) := by
    intro p hp
    have := (List.mem_filter.mp hp).2
    simpa using this
  simp [mapFind, List.find?_eq_none.mpr this]

/-- Membership in the erased map. -/
theorem mem_mapErase {m : List (Nat × UiCanvasMetadata)} {id : Nat}
    {p : Nat × UiCanvasMetadata} (hp : p ∈ mapErase m id) : p ∈ m ∧ p.1 ≠ id := by
  have := List.mem_filter.mp hp
  exact ⟨this.1, by simpa using this.2⟩

/-- Lookup over a concatenation tries the left part first. -/
theorem mapFind_append (m l : List (Nat × UiCanvasMetadata)) (id : Nat) :
    mapFind (m ++ l) id =
      match mapFind m id with
      | some v => some v
      | none => mapFind l id := by
  induction m with
  | nil => simp [mapFind]
  | cons p t ih =>
    by_cases hp : p.1 = id
    · simp [mapFind, List.find?_cons, hp]
    · simpa [mapFind, List.find?_cons, hp] using ih

/-- `findIdx?` on a list containing the key, with an arbitrary start
index: the found index addresses the key, and removing it by index is
removing the first occurrence. -/
theorem findIdx?_mem_spec (l : List Nat) (id : Nat) (h : id ∈ l) :
    ∀ k : Nat, ∃ i : Nat,
      l.findIdx? (fun x => x = id) k = some (k + i) ∧ i < l.length ∧
      l.eraseIdx i = l.erase id ∧ l.getD i 0 = id := by
  induction l with
  | nil => cases h
  | cons a t ih =>
    intro k
    by_cases ha : a = id
    · subst ha
      refine ⟨0, ?_, by simp, by simp, rfl⟩
      simp [List.findIdx?_cons]
    · have hmem : id ∈ t := by
        rcases List.mem_cons.mp h with h' | h'
        · exact absurd h'.symm ha
        · exact h'
      obtain ⟨i, hfi, hlt, her, hget⟩ := ih hmem (k + 1)
      refine ⟨i + 1, ?_, by simpa using Nat.succ_lt_succ hlt, ?_, by simpa using hget⟩
      · rw [List.findIdx?_cons]
        simp only [ha, decide_eq_true_eq, if_false]
        rw [hfi]
        congr 1
        omega
      · have hne : ¬ (a == id) = true := by simpa using ha
        simp [List.eraseIdx_cons_succ, List.erase_cons, ha, her]

end LYUiCanvasEditor

namespace LYUiCanvasEditor

/-! ### What the window operations do to the modelled fields -/

theorem setActiveCanvas_tabs (id : Nat) (s : EditorWindowState) :
    (setActiveCanvas id s).tabs = s.tabs := by
  unfold setActiveCanvas
  split_ifs <;> rfl

theorem setActiveCanvas_map (id : Nat) (s : EditorWindowState) :
    (setActiveCanvas id s).canvasMetadataMap = s.canvasMetadataMap := by
  unfold setActiveCanvas
  split_ifs <;> rfl

theorem setActiveCanvas_active (id : Nat) (s : EditorWindowState) :
    (setActiveCanvas id s).activeCanvasEntityId = id := by
  unfold setActiveCanvas
  split_ifs with h
  · exact h.symm
  · rfl

theorem onCurrentCanvasTabChanged_tabs (i : Int) (s : EditorWindowState) :
    (onCurrentCanvasTabChanged i s).tabs = s.tabs := by
  show (if 0 ≤ i ∧ tabIdAt s i = 0 then s
    else if tabIdAt s i ≠ 0 ∧ tabIdAt s i = s.activeCanvasEntityId then s
    else if ¬ canChangeActiveCanvas s then
      { s with currentTabIndex := getTabIndexForCanvasEntityId s s.activeCanvasEntityId }
    else setActiveCanvas (tabIdAt s i) s).tabs = s.tabs
  split_ifs <;> first | rfl | exact setActiveCanvas_tabs _ _

theorem onCurrentCanvasTabChanged_map (i : Int) (s : EditorWindowState) :
    (onCurrentCanvasTabChanged i s).canvasMetadataMap = s.canvasMetadataMap := by
  show (if 0 ≤ i ∧ tabIdAt s i = 0 then s
    else if tabIdAt s i ≠ 0 ∧ tabIdAt s i = s.activeCanvasEntityId then s
    else if ¬ canChangeActiveCanvas s then
      { s with currentTabIndex := getTabIndexForCanvasEntityId s s.activeCanvasEntityId }
    else setActiveCanvas (tabIdAt s i) s).canvasMetadataMap = s.canvasMetadataMap
  split_ifs <;> first | rfl | exact setActiveCanvas_map _ _

theorem removeTab_tabs (i newCur : Int) (fired : Bool) (s : EditorWindowState) :
    (removeTab i newCur fired s).tabs =
      if 0 ≤ i ∧ i < s.tabs.length then s.tabs.eraseIdx i.toNat else s.tabs := by
  unfold removeTab
  split_ifs <;> first | rfl | exact onCurrentCanvasTabChanged_tabs _ _

theorem removeTab_map (i newCur : Int) (fired : Bool) (s : EditorWindowState) :
    (removeTab i newCur fired s).canvasMetadataMap = s.canvasMetadataMap := by
  unfold removeTab
  split_ifs <;> first | rfl | exact onCurrentCanvasTabChanged_map _ _

/-- A tab index in range addresses a stored tab id. -/
theorem tabIdAt_mem_of_range (s : EditorWindowState) (idx : Int)
    (h : 0 ≤ idx ∧ idx < s.tabs.length) : tabIdAt s idx ∈ s.tabs := by
  unfold tabIdAt
  rw [if_pos h]
  have hlt : idx.toNat < s.tabs.length := by omega
  rw [List.getD_eq_getElem s.tabs 0 hlt]
  exact List.getElem_mem _

/-- The active-canvas repair at the end of `UnloadCanvas` keeps the tabs
and the map and yields an invalid or loaded active canvas, given that
every tab id is loaded. -/
theorem ensureActiveCanvas_spec (s2 : EditorWindowState)
    (hB : ∀ x ∈ s2.tabs, (mapFind s2.canvasMetadataMap x).isSome) :
    (ensureActiveCanvas s2).tabs = s2.tabs ∧
    (ensureActiveCanvas s2).canvasMetadataMap = s2.canvasMetadataMap ∧
    ((ensureActiveCanvas s2).activeCanvasEntityId = 0 ∨
      (mapFind (ensureActiveCanvas s2).canvasMetadataMap
        (ensureActiveCanvas s2).activeCanvasEntityId).isSome) := by
  unfold ensureActiveCanvas
  split_ifs with h1 h2
  · exact ⟨rfl, rfl, Or.inr h1⟩
  · refine ⟨setActiveCanvas_tabs _ _, setActiveCanvas_map _ _, Or.inr ?_⟩
    rw [setActiveCanvas_map, setActiveCanvas_active]
    exact hB _ (tabIdAt_mem_of_range s2 s2.currentTabIndex h2)
  · exact ⟨setActiveCanvas_tabs _ _, setActiveCanvas_map _ _,
      Or.inl (setActiveCanvas_active _ _)⟩

/-- `UnloadCanvas` of a canvas that is not loaded does nothing. -/
theorem unloadCanvas_of_none {s : EditorWindowState} {id : Nat}
    (h : mapFind s.canvasMetadataMap id = none) (newCur : Int) (fired : Bool) :
    unloadCanvas id newCur fired s = s := by
  unfold unloadCanvas
  rw [h]

/-- `UnloadCanvas` of a loaded canvas: erase the map entry, remove the
tab, repair the active canvas. -/
theorem unloadCanvas_of_some {s : EditorWindowState} {id : Nat} {v : UiCanvasMetadata}
    (h : mapFind s.canvasMetadataMap id = some v) (newCur : Int) (fired : Bool) :
    unloadCanvas id newCur fired s =
      ensureActiveCanvas (removeTab
        (getTabIndexForCanvasEntityId
          { s with canvasMetadataMap := mapErase s.canvasMetadataMap id } id)
        newCur fired
        { s with canvasMetadataMap := mapErase s.canvasMetadataMap id }) := by
  unfold unloadCanvas
  rw [h]

end LYUiCanvasEditor

namespace LYUiCanvasEditor

/-! ### UnloadCanvas preserves the tab/canvas correspondence -/

/-- Erasing an absent key does nothing. -/
theorem mapErase_of_no_key {m : List (Nat × UiCanvasMetadata)} {id : Nat}
    (h : ∀ q ∈ m, q.1 ≠ id) : mapErase m id = m := by
  apply List.filter_eq_self.mpr
  intro q hq
  simpa using h q hq

/-- With unique keys, erasing a stored key drops exactly one entry. -/
theorem mapErase_length {m : List (Nat × UiCanvasMetadata)} {id : Nat}
    {v : UiCanvasMetadata} (hmem : (id, v) ∈ m)
    (hnd : (m.map (fun p => p.1)).Nodup) :
    (mapErase m id).length = m.length - 1 := by
  induction m with
  | nil => cases hmem
  | cons p t ih =>
    have hnd' : (t.map (fun p => p.1)).Nodup := (List.nodup_cons.mp hnd).2
    have hpnot : p.1 ∉ t.map (fun q => q.1) := (List.nodup_cons.mp hnd).1
    by_cases hp : p.1 = id
    · have hkeys : ∀ q ∈ t, q.1 ≠ id := by
        intro q hq hqid
        exact hpnot (by
          rw [hp, ← hqid]
          exact List.mem_map.mpr ⟨q, hq, rfl⟩)
      have : mapErase (p :: t) id = mapErase t id := by
        simp [mapErase, List.filter_cons, hp]
      rw [this, mapErase_of_no_key hkeys]
      simp
    · have hmem' : (id, v) ∈ t := by
        rcases List.mem_cons.mp hmem with h' | h'
        · exact absurd (congrArg Prod.fst h').symm hp
        · exact h'
      have hpos : 0 < t.length := List.length_pos_of_mem hmem'
      have hlen := ih hmem' hnd'
      have : mapErase (p :: t) id = p :: mapErase t id := by
        simp [mapErase, List.filter_cons, hp]
      rw [this]
      simp only [List.length_cons, hlen]
      omega

/-- `UnloadCanvas` keeps the invariant, for any Qt tab-removal behavior. -/
theorem unload_inv (id : Nat) (newCur : Int) (fired : Bool)
    (s : EditorWindowState) (hinv : TabMapInv s) :
    TabMapInv (unloadCanvas id newCur fired s) := by
  obtain ⟨hA, hB, hND, hKND, hNZ, hE, hF⟩ := hinv
  cases hfind : mapFind s.canvasMetadataMap id with
  | none =>
    rw [unloadCanvas_of_none hfind]
    exact ⟨hA, hB, hND, hKND, hNZ, hE, hF⟩
  | some v =>
    have hmemMap : (id, v) ∈ s.canvasMetadataMap := mapFind_some_mem hfind
    have hidtabs : id ∈ s.tabs := by
      by_contra hno
      have hc := hA _ hmemMap
      rw [List.count_eq_zero.mpr hno] at hc
      omega
    obtain ⟨i, hfi, hlt, her, hget⟩ := findIdx?_mem_spec s.tabs id hidtabs 0
    have hfi0 : s.tabs.findIdx? (fun x => x = id) = some i := by simpa using hfi
    rw [unloadCanvas_of_some hfind newCur fired]
    have hidx : getTabIndexForCanvasEntityId
        { s with canvasMetadataMap := mapErase s.canvasMetadataMap id } id = (i : Int) := by
      unfold getTabIndexForCanvasEntityId
      have htabs : ({ s with canvasMetadataMap := mapErase s.canvasMetadataMap id } :
          EditorWindowState).tabs = s.tabs := rfl
      rw [htabs, hfi0]
    rw [hidx]
    have htabs2 : (removeTab (i:Int) newCur fired
        { s with canvasMetadataMap := mapErase s.canvasMetadataMap id }).tabs =
        s.tabs.erase id := by
      rw [removeTab_tabs]
      split_ifs with h
      · show s.tabs.eraseIdx ((i:Int)).toNat = s.tabs.erase id
        rw [Int.toNat_ofNat]
        exact her
      · exfalso
        apply h
        constructor
        · omega
        · show (i:Int) < (s.tabs.length : Int)
          omega
    have hmap2 : (removeTab (i:Int) newCur fired
        { s with canvasMetadataMap := mapErase s.canvasMetadataMap id }).canvasMetadataMap =
        mapErase s.canvasMetadataMap id := by
      rw [removeTab_map]
    have hB2 : ∀ x ∈ (removeTab (i:Int) newCur fired
        { s with canvasMetadataMap := mapErase s.canvasMetadataMap id }).tabs,
        (mapFind (removeTab (i:Int) newCur fired
          { s with canvasMetadataMap := mapErase s.canvasMetadataMap id }).canvasMetadataMap
          x).isSome := by
      intro x hx
      rw [htabs2] at hx
      rw [hmap2]
      have hxne : x ≠ id := ((List.Nodup.mem_erase_iff hND).mp hx).1
      rw [mapFind_mapErase_ne _ _ _ hxne]
      exact hB x (List.mem_of_mem_erase hx)
    obtain ⟨het, hem, hef⟩ := ensureActiveCanvas_spec _ hB2
    rw [htabs2] at het
    rw [hmap2] at hem
    refine ⟨?_, ?_, ?_, ?_, ?_, ?_, hef⟩
    · intro p hp
      rw [hem] at hp
      obtain ⟨hpmem, hpne⟩ := mem_mapErase hp
      rw [het, List.count_erase_of_ne hpne]
      exact hA p hpmem
    · intro x hx
      rw [het] at hx
      rw [hem]
      have hxne : x ≠ id := ((List.Nodup.mem_erase_iff hND).mp hx).1
      rw [mapFind_mapErase_ne _ _ _ hxne]
      exact hB x (List.mem_of_mem_erase hx)
    · rw [het]
      exact List.Nodup.erase _ hND
    · rw [hem]
      exact List.Nodup.sublist (List.Sublist.map _ (List.filter_sublist _)) hKND
    · intro p hp
      rw [hem] at hp
      exact hNZ p (mem_mapErase hp).1
    · intro p hp
      rw [hem] at hp
      exact hE p (mem_mapErase hp).1

end LYUiCanvasEditor

namespace LYUiCanvasEditor

/-! ### LoadCanvas preserves the tab/canvas correspondence -/

/-- Lookup in a one-entry map. -/
theorem mapFind_singleton (id : Nat) (m : UiCanvasMetadata) :
    mapFind [(id, m)] id = some m := by
  simp [mapFind, List.find?_cons]

/-- Activating a loaded (or no) canvas keeps the invariant. -/
theorem setActive_inv (id : Nat) (s : EditorWindowState) (hinv : TabMapInv s)
    (hid : id = 0 ∨ (mapFind s.canvasMetadataMap id).isSome) :
    TabMapInv (setActiveCanvas id s) := by
  obtain ⟨hA, hB, hND, hKND, hNZ, hE, hF⟩ := hinv
  refine ⟨?_, ?_, ?_, ?_, ?_, ?_, ?_⟩
  · intro p hp
    rw [setActiveCanvas_map] at hp
    rw [setActiveCanvas_tabs]
    exact hA p hp
  · intro x hx
    rw [setActiveCanvas_tabs] at hx
    rw [setActiveCanvas_map]
    exact hB x hx
  · rw [setActiveCanvas_tabs]
    exact hND
  · rw [setActiveCanvas_map]
    exact hKND
  · intro p hp
    rw [setActiveCanvas_map] at hp
    exact hNZ p hp
  · intro p hp
    rw [setActiveCanvas_map] at hp
    exact hE p hp
  · rw [setActiveCanvas_map, setActiveCanvas_active]
    exact hid

/-- A non-zero already-loaded id names a loaded canvas. -/
theorem already_isSome (s : EditorWindowState) (fe : Bool) (sp : String)
    (hE : ∀ p ∈ s.canvasMetadataMap, p.2.canvasEntityId = p.1)
    (h : loadAlreadyLoaded s fe sp ≠ 0) :
    (mapFind s.canvasMetadataMap (loadAlreadyLoaded s fe sp)).isSome := by
  unfold loadAlreadyLoaded at h ⊢
  by_cases hfe : fe = true
  · simp [hfe] at h
  · simp only [Bool.not_eq_true] at hfe
    simp only [hfe, Bool.false_eq_true, if_false] at h ⊢
    cases hf : s.canvasMetadataMap.find?
        (fun p => p.2.canvasSourceAssetPathname = sp) with
    | none => rw [hf] at h; simp at h
    | some p =>
      have hpmem := List.mem_of_find?_eq_some hf
      have hkey := hE p hpmem
      have hs := mapFind_isSome_of_mem hpmem
      show (mapFind s.canvasMetadataMap p.2.canvasEntityId).isSome
      rw [hkey]
      exact hs

/-- The tab/map insertion step keeps the invariant for a fresh id. -/
theorem loadAppend_inv (envp : LoadEnv) (a : Bool) (sp : String)
    (s : EditorWindowState) (hinv : TabMapInv s)
    (hid0 : envp.newCanvasEntityId ≠ 0)
    (hfind : mapFind s.canvasMetadataMap envp.newCanvasEntityId = none)
    (htab : envp.newCanvasEntityId ∉ s.tabs) :
    TabMapInv (loadAppend envp a sp s) := by
  obtain ⟨hA, hB, hND, hKND, hNZ, hE, hF⟩ := hinv
  have hkeys := mapFind_none_not_key hfind
  have htabs : (loadAppend envp a sp s).tabs =
      s.tabs ++ [envp.newCanvasEntityId] := rfl
  have hmap : (loadAppend envp a sp s).canvasMetadataMap =
      s.canvasMetadataMap ++ [(envp.newCanvasEntityId, loadMeta envp a sp)] := rfl
  have hactive : (loadAppend envp a sp s).activeCanvasEntityId =
      s.activeCanvasEntityId := rfl
  refine ⟨?_, ?_, ?_, ?_, ?_, ?_, ?_⟩
  · intro p hp
    rw [hmap] at hp
    rw [htabs, List.count_append]
    rcases List.mem_append.mp hp with h | h
    · have hne : p.1 ≠ envp.newCanvasEntityId := hkeys p h
      have h0 : List.count p.1 [envp.newCanvasEntityId] = 0 :=
        List.count_eq_zero.mpr (by simpa using hne)
      rw [hA p h, h0]
    · have hp' : p = (envp.newCanvasEntityId, loadMeta envp a sp) := by
        simpa using h
      subst hp'
      rw [List.count_eq_zero.mpr htab]
      simp
  · intro x hx
    rw [htabs] at hx
    rw [hmap, mapFind_append]
    rcases List.mem_append.mp hx with h | h
    · obtain ⟨v, hv⟩ := Option.isSome_iff_exists.mp (hB x h)
      rw [hv]
      simp
    · have hx' : x = envp.newCanvasEntityId := by simpa using h
      subst hx'
      rw [hfind, mapFind_singleton]
      simp
  · rw [htabs]
    refine List.nodup_append.mpr ⟨hND, by simp, ?_⟩
    intro x hx hx'
    have : x = envp.newCanvasEntityId := by simpa using hx'
    subst this
    exact htab hx
  · rw [hmap, List.map_append]
    refine List.nodup_append.mpr ⟨hKND, by simp, ?_⟩
    intro x hx hx'
    have hx0 : x = envp.newCanvasEntityId := by simpa using hx'
    subst hx0
    obtain ⟨p, hpmem, hpeq⟩ := List.mem_map.mp hx
    exact hkeys p hpmem hpeq
  · intro p hp
    rw [hmap] at hp
    rcases List.mem_append.mp hp with h | h
    · exact hNZ p h
    · have hp' : p = (envp.newCanvasEntityId, loadMeta envp a sp) := by simpa using h
      subst hp'
      exact hid0
  · intro p hp
    rw [hmap] at hp
    rcases List.mem_append.mp hp with h | h
    · exact hE p h
    · have hp' : p = (envp.newCanvasEntityId, loadMeta envp a sp) := by simpa using h
      subst hp'
      rfl
  · rw [hmap, hactive]
    rcases hF with h | h
    · exact Or.inl h
    · obtain ⟨v, hv⟩ := Option.isSome_iff_exists.mp h
      rw [mapFind_append, hv]
      simp
  
/-- The activation step keeps the invariant when the new id is loaded. -/
theorem loadActivate_inv (c : Bool) (id : Nat) (s1 : EditorWindowState)
    (hinv : TabMapInv s1)
    (hid : id = 0 ∨ (mapFind s1.canvasMetadataMap id).isSome) :
    TabMapInv (loadActivate c id s1) := by
  unfold loadActivate
  split_ifs
  · exact setActive_inv id s1 hinv hid
  · exact hinv
  · exact hinv

/-- The successful-creation tail keeps the invariant for a fresh id. -/
theorem loadNew_inv (envp : LoadEnv) (a c : Bool) (sp : String)
    (s : EditorWindowState) (hinv : TabMapInv s)
    (hid0 : envp.newCanvasEntityId ≠ 0)
    (hfind : mapFind s.canvasMetadataMap envp.newCanvasEntityId = none)
    (htab : envp.newCanvasEntityId ∉ s.tabs) :
    TabMapInv (loadCanvasNew envp a c sp s) := by
  have h1 := loadAppend_inv envp a sp s hinv hid0 hfind htab
  have hsome : (mapFind (loadAppend envp a sp s).canvasMetadataMap
      envp.newCanvasEntityId).isSome := by
    have hmap : (loadAppend envp a sp s).canvasMetadataMap =
        s.canvasMetadataMap ++ [(envp.newCanvasEntityId, loadMeta envp a sp)] := rfl
    rw [hmap, mapFind_append, hfind, mapFind_singleton]
    simp
  have h2 := loadActivate_inv c envp.newCanvasEntityId _ h1 (Or.inr hsome)
  unfold loadCanvasNew
  split_ifs
  · exact unload_inv _ _ _ _ h2
  · exact h2

/-- `LoadCanvas` with the popup guard off, written out. -/
theorem loadCanvas_eq (envp : LoadEnv) (fe a c : Bool) (s : EditorWindowState)
    (hpop : envp.popupActive = false) :
    loadCanvas envp fe a c s =
      match (if fe then some "" else envp.pathResolved) with
      | none => s
      | some sourcePath =>
        if loadAlreadyLoaded s fe sourcePath ≠ 0 then
          if c ∧ canChangeActiveCanvas s then
            setActiveCanvas (loadAlreadyLoaded s fe sourcePath) s
          else s
        else if envp.newCanvasEntityId = 0 then s
        else loadCanvasNew envp a c sourcePath s := by
  unfold loadCanvas
  rw [hpop]
  simp

/-- `LoadCanvas` keeps the invariant, provided a successfully created
canvas id is fresh (the engine returns an id that is not already a loaded
canvas). -/
theorem load_inv (envp : LoadEnv) (fe a c : Bool) (s : EditorWindowState)
    (hinv : TabMapInv s)
    (hfresh : envp.newCanvasEntityId ≠ 0 →
      mapFind s.canvasMetadataMap envp.newCanvasEntityId = none ∧
      envp.newCanvasEntityId ∉ s.tabs) :
    TabMapInv (loadCanvas envp fe a c s) := by
  rcases Bool.eq_false_or_eq_true envp.popupActive with hpop | hpop
  · have : loadCanvas envp fe a c s = s := by
      unfold loadCanvas
      rw [hpop]
      simp
    rw [this]
    exact hinv
  · rw [loadCanvas_eq envp fe a c s hpop]
    split
    · exact hinv
    · split_ifs with h1 h2 h3
      · exact setActive_inv _ _ hinv
          (Or.inr (already_isSome s fe _ hinv.2.2.2.2.2.1 h1))
      · exact hinv
      · exact hinv
      · obtain ⟨hf, ht⟩ := hfresh h3
        exact loadNew_inv envp a c _ s hinv h3 hf ht

end LYUiCanvasEditor

namespace LYUiCanvasEditor

/-! ### Counting the effect of load and unload -/

/-- The exact tabs and map of `UnloadCanvas` on a loaded canvas under the
invariant. -/
theorem unload_shape (id : Nat) (newCur : Int) (fired : Bool)
    (s : EditorWindowState) (hinv : TabMapInv s) {v : UiCanvasMetadata}
    (hfind : mapFind s.canvasMetadataMap id = some v) :
    (unloadCanvas id newCur fired s).tabs = s.tabs.erase id ∧
    (unloadCanvas id newCur fired s).canvasMetadataMap =
      mapErase s.canvasMetadataMap id := by
  obtain ⟨hA, hB, hND, hKND, hNZ, hE, hF⟩ := hinv
  have hmemMap : (id, v) ∈ s.canvasMetadataMap := mapFind_some_mem hfind
  have hidtabs : id ∈ s.tabs := by
    by_contra hno
    have hc := hA _ hmemMap
    rw [List.count_eq_zero.mpr hno] at hc
    omega
  obtain ⟨i, hfi, hlt, her, hget⟩ := findIdx?_mem_spec s.tabs id hidtabs 0
  have hfi0 : s.tabs.findIdx? (fun x => x = id) = some i := by simpa using hfi
  rw [unloadCanvas_of_some hfind newCur fired]
  have hidx : getTabIndexForCanvasEntityId
      { s with canvasMetadataMap := mapErase s.canvasMetadataMap id } id = (i : Int) := by
    unfold getTabIndexForCanvasEntityId
    have htabs : ({ s with canvasMetadataMap := mapErase s.canvasMetadataMap id } :
        EditorWindowState).tabs = s.tabs := rfl
    rw [htabs, hfi0]
  rw [hidx]
  have htabs2 : (removeTab (i:Int) newCur fired
      { s with canvasMetadataMap := mapErase s.canvasMetadataMap id }).tabs =
      s.tabs.erase id := by
    rw [removeTab_tabs]
    split_ifs with h
    · show s.tabs.eraseIdx ((i:Int)).toNat = s.tabs.erase id
      rw [Int.toNat_ofNat]
      exact her
    · exfalso
      apply h
      constructor
      · omega
      · show (i:Int) < (s.tabs.length : Int)
        omega
  have hmap2 : (removeTab (i:Int) newCur fired
      { s with canvasMetadataMap := mapErase s.canvasMetadataMap id }).canvasMetadataMap =
      mapErase s.canvasMetadataMap id := by
    rw [removeTab_map]
  have hB2 : ∀ x ∈ (removeTab (i:Int) newCur fired
      { s with canvasMetadataMap := mapErase s.canvasMetadataMap id }).tabs,
      (mapFind (removeTab (i:Int) newCur fired
        { s with canvasMetadataMap := mapErase s.canvasMetadataMap id }).canvasMetadataMap
        x).isSome := by
    intro x hx
    rw [htabs2] at hx
    rw [hmap2]
    have hxne : x ≠ id := ((List.Nodup.mem_erase_iff hND).mp hx).1
    rw [mapFind_mapErase_ne _ _ _ hxne]
    exact hB x (List.mem_of_mem_erase hx)
  obtain ⟨het, hem, _⟩ := ensureActiveCanvas_spec _ hB2
  rw [htabs2] at het
  rw [hmap2] at hem
  exact ⟨het, hem⟩

/-- `UnloadCanvas` of a loaded canvas removes exactly one tab and one map
entry, and the canvas is gone afterwards. -/
theorem unload_removes (id : Nat) (newCur : Int) (fired : Bool)
    (s : EditorWindowState) (hinv : TabMapInv s)
    (hsome : (mapFind s.canvasMetadataMap id).isSome) :
    (unloadCanvas id newCur fired s).tabs.length = s.tabs.length - 1 ∧
    (unloadCanvas id newCur fired s).canvasMetadataMap.length =
      s.canvasMetadataMap.length - 1 ∧
    id ∉ (unloadCanvas id newCur fired s).tabs ∧
    mapFind (unloadCanvas id newCur fired s).canvasMetadataMap id = none := by
  obtain ⟨v, hfind⟩ := Option.isSome_iff_exists.mp hsome
  obtain ⟨ht, hm⟩ := unload_shape id newCur fired s hinv hfind
  obtain ⟨hA, hB, hND, hKND, hNZ, hE, hF⟩ := hinv
  have hmemMap : (id, v) ∈ s.canvasMetadataMap := mapFind_some_mem hfind
  have hidtabs : id ∈ s.tabs := by
    by_contra hno
    have hc := hA _ hmemMap
    rw [List.count_eq_zero.mpr hno] at hc
    omega
  refine ⟨?_, ?_, ?_, ?_⟩
  · rw [ht]
    exact List.length_erase_of_mem hidtabs
  · rw [hm]
    exact mapErase_length hmemMap hKND
  · rw [ht]
    intro hmem
    exact ((List.Nodup.mem_erase_iff hND).mp hmem).1 rfl
  · rw [hm]
    exact mapFind_mapErase_self _ _

/-- Loading a new canvas (empty filename, successful creation with a
fresh id) adds exactly one tab and one map entry for it. -/
theorem load_adds (envp : LoadEnv) (a c : Bool) (s : EditorWindowState)
    (hpop : envp.popupActive = false)
    (hid : envp.newCanvasEntityId ≠ 0)
    (htab : envp.newCanvasEntityId ∉ s.tabs)
    (hfind : mapFind s.canvasMetadataMap envp.newCanvasEntityId = none) :
    (loadCanvas envp true a c s).tabs.length = s.tabs.length + 1 ∧
    (loadCanvas envp true a c s).canvasMetadataMap.length =
      s.canvasMetadataMap.length + 1 ∧
    (loadCanvas envp true a c s).tabs.count envp.newCanvasEntityId = 1 ∧
    (mapFind (loadCanvas envp true a c s).canvasMetadataMap
      envp.newCanvasEntityId).isSome := by
  have he : loadCanvas envp true a c s =
      loadActivate c envp.newCanvasEntityId (loadAppend envp a "" s) := by
    rw [loadCanvas_eq envp true a c s hpop]
    show (if loadAlreadyLoaded s true "" ≠ 0 then _ else _) = _
    rw [if_neg (by simp [loadAlreadyLoaded])]
    rw [if_neg hid]
    unfold loadCanvasNew
    rw [if_neg (by simp [loadAutoUnloadTarget])]
  rw [he]
  have htabs : (loadActivate c envp.newCanvasEntityId (loadAppend envp a "" s)).tabs =
      s.tabs ++ [envp.newCanvasEntityId] := by
    unfold loadActivate
    split_ifs <;> first | rfl | exact setActiveCanvas_tabs _ _
  have hmap : (loadActivate c envp.newCanvasEntityId
      (loadAppend envp a "" s)).canvasMetadataMap =
      s.canvasMetadataMap ++ [(envp.newCanvasEntityId, loadMeta envp a "")] := by
    unfold loadActivate
    split_ifs <;> first | rfl | exact setActiveCanvas_map _ _
  refine ⟨?_, ?_, ?_, ?_⟩
  · rw [htabs]
    simp
  · rw [hmap]
    simp
  · rw [htabs, List.count_append, List.count_eq_zero.mpr htab]
    simp
  · rw [hmap, mapFind_append, hfind, mapFind_singleton]
    simp

/-- Under the invariant, `GetTabIndexForCanvasEntityId` finds every loaded
canvas's tab, and that tab's data is the canvas id. -/
theorem inv_findable (s : EditorWindowState) (hinv : TabMapInv s) :
    ∀ p ∈ s.canvasMetadataMap,
      0 ≤ getTabIndexForCanvasEntityId s p.1 ∧
      tabIdAt s (getTabIndexForCanvasEntityId s p.1) = p.1 := by
  obtain ⟨hA, hB, hND, hKND, hNZ, hE, hF⟩ := hinv
  intro p hp
  have hmem : p.1 ∈ s.tabs := by
    by_contra hno
    have hc := hA p hp
    rw [List.count_eq_zero.mpr hno] at hc
    omega
  obtain ⟨i, hfi, hlt, her, hget⟩ := findIdx?_mem_spec s.tabs p.1 hmem 0
  have hfi0 : s.tabs.findIdx? (fun x => x = p.1) = some i := by simpa using hfi
  have hidx : getTabIndexForCanvasEntityId s p.1 = (i:Int) := by
    unfold getTabIndexForCanvasEntityId
    rw [hfi0]
  rw [hidx]
  refine ⟨by omega, ?_⟩
  unfold tabIdAt
  split_ifs with h
  · show s.tabs.getD ((i:Int)).toNat 0 = p.1
    rw [Int.toNat_ofNat]
    exact hget
  · exfalso
    apply h
    constructor
    · omega
    · show (i:Int) < (s.tabs.length : Int)
      omega

end LYUiCanvasEditor

/-- **C7**: the UI canvas editor maintains a one-to-one correspondence
between loaded canvases and tabs: `LoadCanvas` and `UnloadCanvas` preserve
the invariant that every metadata-map entry has exactly one tab storing
its canvas entity id, every tab's id is a loaded canvas, and the active
canvas id is invalid or present in the map (for any Qt tab-removal
behavior, assuming the engine hands out fresh entity ids); loading a new
canvas adds exactly one tab and one map entry; unloading a loaded canvas
removes exactly one of each; and under the invariant
`GetTabIndexForCanvasEntityId` finds every loaded canvas's tab, whose tab
data is that canvas's id. -/
theorem C7_canvas_tab_correspondence :
    (∀ (s : LYUiCanvasEditor.EditorWindowState) (envp : LYUiCanvasEditor.LoadEnv)
      (fe a c : Bool),
      LYUiCanvasEditor.TabMapInv s →
      (envp.newCanvasEntityId ≠ 0 →
        LYUiCanvasEditor.mapFind s.canvasMetadataMap envp.newCanvasEntityId = none ∧
        envp.newCanvasEntityId ∉ s.tabs) →
      LYUiCanvasEditor.TabMapInv (LYUiCanvasEditor.loadCanvas envp fe a c s)) ∧
    (∀ (s : LYUiCanvasEditor.EditorWindowState) (id : Nat) (newCur : Int) (fired : Bool),
      LYUiCanvasEditor.TabMapInv s →
      LYUiCanvasEditor.TabMapInv (LYUiCanvasEditor.unloadCanvas id newCur fired s)) ∧
    (∀ (s : LYUiCanvasEditor.EditorWindowState) (envp : LYUiCanvasEditor.LoadEnv)
      (a c : Bool),
      envp.popupActive = false → envp.newCanvasEntityId ≠ 0 →
      envp.newCanvasEntityId ∉ s.tabs →
      LYUiCanvasEditor.mapFind s.canvasMetadataMap envp.newCanvasEntityId = none →
      (LYUiCanvasEditor.loadCanvas envp true a c s).tabs.length = s.tabs.length + 1 ∧
      (LYUiCanvasEditor.loadCanvas envp true a c s).canvasMetadataMap.length =
        s.canvasMetadataMap.length + 1 ∧
      (LYUiCanvasEditor.loadCanvas envp true a c s).tabs.count envp.newCanvasEntityId = 1 ∧
      (LYUiCanvasEditor.mapFind
        (LYUiCanvasEditor.loadCanvas envp true a c s).canvasMetadataMap
        envp.newCanvasEntityId).isSome) ∧
    (∀ (s : LYUiCanvasEditor.EditorWindowState) (id : Nat) (newCur : Int) (fired : Bool),
      LYUiCanvasEditor.TabMapInv s →
      (LYUiCanvasEditor.mapFind s.canvasMetadataMap id).isSome →
      (LYUiCanvasEditor.unloadCanvas id newCur fired s).tabs.length = s.tabs.length - 1 ∧
      (LYUiCanvasEditor.unloadCanvas id newCur fired s).canvasMetadataMap.length =
        s.canvasMetadataMap.length - 1 ∧
      id ∉ (LYUiCanvasEditor.unloadCanvas id newCur fired s).tabs ∧
      LYUiCanvasEditor.mapFind
        (LYUiCanvasEditor.unloadCanvas id newCur fired s).canvasMetadataMap id = none) ∧
    (∀ s : LYUiCanvasEditor.EditorWindowState, LYUiCanvasEditor.TabMapInv s →
      ∀ p ∈ s.canvasMetadataMap,
        0 ≤ LYUiCanvasEditor.getTabIndexForCanvasEntityId s p.1 ∧
        LYUiCanvasEditor.tabIdAt s (LYUiCanvasEditor.getTabIndexForCanvasEntityId s p.1) =
          p.1) :=
  ⟨fun s envp fe a c hinv hfresh => LYUiCanvasEditor.load_inv envp fe a c s hinv hfresh,
   fun s id newCur fired hinv => LYUiCanvasEditor.unload_inv id newCur fired s hinv,
   fun s envp a c hpop hid htab hfind =>
     LYUiCanvasEditor.load_adds envp a c s hpop hid htab hfind,
   fun s id newCur fired hinv hsome =>
     LYUiCanvasEditor.unload_removes id newCur fired s hinv hsome,
   LYUiCanvasEditor.inv_findable⟩

/-- Witness for C7 at the two-canvas demo window: the invariant holds and
is kept by a load with activation and by unloading canvas 7; loading a new
canvas 9 yields three tabs; unloading 7 leaves one map entry; and canvas
7's tab is found and stores 7. -/
theorem C7_witness :
    LYUiCanvasEditor.TabMapInv LYUiCanvasEditor.demoWindow ∧
    LYUiCanvasEditor.TabMapInv
      (LYUiCanvasEditor.loadCanvas LYUiCanvasEditor.demoLoadEnv false true true
        LYUiCanvasEditor.demoWindow) ∧
    LYUiCanvasEditor.TabMapInv
      (LYUiCanvasEditor.unloadCanvas 7 0 false LYUiCanvasEditor.demoWindow) ∧
    (LYUiCanvasEditor.loadCanvas LYUiCanvasEditor.demoLoadEnv true false false
      LYUiCanvasEditor.demoWindow).tabs.length = 3 ∧
    (LYUiCanvasEditor.unloadCanvas 7 0 false
      LYUiCanvasEditor.demoWindow).canvasMetadataMap.length = 1 ∧
    LYUiCanvasEditor.tabIdAt LYUiCanvasEditor.demoWindow
      (LYUiCanvasEditor.getTabIndexForCanvasEntityId LYUiCanvasEditor.demoWindow 7) = 7 := by
  have hinv : LYUiCanvasEditor.TabMapInv LYUiCanvasEditor.demoWindow := by decide
  have hfresh : LYUiCanvasEditor.demoLoadEnv.newCanvasEntityId ≠ 0 →
      LYUiCanvasEditor.mapFind LYUiCanvasEditor.demoWindow.canvasMetadataMap
        LYUiCanvasEditor.demoLoadEnv.newCanvasEntityId = none ∧
      LYUiCanvasEditor.demoLoadEnv.newCanvasEntityId ∉
        LYUiCanvasEditor.demoWindow.tabs := fun _ => by decide
  refine ⟨hinv, ?_, ?_, ?_, ?_, ?_⟩
  · exact C7_canvas_tab_correspondence.1 LYUiCanvasEditor.demoWindow
      LYUiCanvasEditor.demoLoadEnv false true true hinv hfresh
  · exact C7_canvas_tab_correspondence.2.1 LYUiCanvasEditor.demoWindow 7 0 false hinv
  · have h := C7_canvas_tab_correspondence.2.2.1 LYUiCanvasEditor.demoWindow
      LYUiCanvasEditor.demoLoadEnv false false (by decide) (by decide) (by decide)
      (by decide)
    rw [h.1]
    decide
  · have h := C7_canvas_tab_correspondence.2.2.2.1 LYUiCanvasEditor.demoWindow 7 0 false
      hinv (by decide)
    rw [h.2.1]
    decide
  · exact ((C7_canvas_tab_correspondence.2.2.2.2 LYUiCanvasEditor.demoWindow hinv)
      (7, LYUiCanvasEditor.demoCanvasMeta 7 "ui/b.uicanvas") (by decide)).2
